import Mathlib

/-!
# Emgu.CV.Extern: the calibration wrappers and the DepthAI header

A verification development for two files of the binding layer:

* `calib/calib_c.cpp`: 49 exported functions.  48 of them forward their
  arguments to one OpenCV function; `getHomographyMatrixFromMatchedFeatures`
  has two loops of its own around `cv::findHomography`.
* `depthai/depthai_c.h`: the stub namespace and error routine used when the
  DepthAI SDK is absent, and the exported declarations.

The wrapped libraries are external.  They enter the development as an
arbitrary oracle (`Library`); every statement holds for all oracles.
-/

namespace EmguExtern

/-! ## Values, errors, memory -/

/-- Error codes of `cv::Error`.  Only `StsBadFunc` is named by the sources. -/
inductive ErrorCode where
  | StsBadFunc
  | other (code : Int)
  deriving DecidableEq, Repr

/-- What `CV_Error(code, msg)` raises: a `cv::Exception` with its code and message. -/
structure CvException where
  code : ErrorCode
  err : String
  deriving DecidableEq, Repr

/-- A C++ exception leaving an exported function. -/
inductive Thrown where
  /-- A `cv::Exception`. -/
  | cvError (e : CvException)
  /-- The `std::out_of_range` of `std::vector::at`. -/
  | outOfRange
  deriving DecidableEq, Repr

/-- How a call of an exported function ends. -/
inductive Outcome (α : Type) where
  /-- Normal return with the returned value (`none` for a `void` function). -/
  | returned (v : α)
  /-- An exception propagates to the caller. -/
  | raised (e : Thrown)
  /-- Undefined behaviour: a null pointer is dereferenced, or `operator[]`
  is used out of range. -/
  | undefined
  deriving DecidableEq, Repr

/-- A pointer argument: `none` is the null pointer, `some a` the address `a`. -/
abbrev Handle := Option Nat

/-- The bit pattern of a `double` or `float`; such values are only copied. -/
abbrev Dbl := Nat

/-- A scalar passed or returned by value. -/
inductive Scalar where
  | int (v : Int)
  | bool (b : Bool)
  | real (v : Dbl)
  deriving DecidableEq, Repr

/-- A `cv::Point2f`. -/
structure Point2f where
  x : Dbl
  y : Dbl
  deriving DecidableEq, Repr

/-- A `cv::Mat`, by its sequence of elements.  A single-column matrix has one
element per row, so its `rows` is the length of the sequence. -/
structure Mat where
  elems : List Nat
  deriving DecidableEq, Repr

/-- The test `cv::Mat::empty()`. -/
def Mat.empty (m : Mat) : Bool := m.elems.isEmpty

/-- A field of a C structure behind a pointer (`self` is the pointee itself,
as in `*fovx`). -/
inductive Field where
  | self
  | x
  | y
  | z
  | width
  | height
  | val (k : Nat)
  deriving DecidableEq, Repr

/-- Caller memory: the arrays (a `cv::Mat`, or the array behind an
`_InputArray` / `_OutputArray` proxy) and the scalar cells, by address. -/
structure Heap where
  mats : Nat → Mat
  cells : Nat → Field → Scalar

/-- Replace the array at address `a`. -/
def Heap.setMat (h : Heap) (a : Nat) (m : Mat) : Heap :=
  { h with mats := Function.update h.mats a m }

/-- Replace the scalar cell `a->f`. -/
def Heap.setCell (h : Heap) (a : Nat) (f : Field) (v : Scalar) : Heap :=
  { h with cells := Function.update h.cells a (Function.update (h.cells a) f v) }

/-! ## The library seen from the wrappers -/

/-- What a library function receives in one argument position. -/
inductive LibArg where
  /-- The object behind a non-null pointer: `*p`. -/
  | ref (addr : Nat)
  /-- The value `cv::noArray()`. -/
  | noArray
  /-- An array with zero elements; it is not `cv::noArray()`. -/
  | zeroSized
  /-- A scalar passed by value. -/
  | val (s : Scalar)
  /-- A non-owning `cv::Ptr` around a raw pointer, which may be null. -/
  | ptr (h : Handle)
  /-- A local variable of the wrapper, passed by reference or by address. -/
  | loc (name : String)
  /-- A `cv::Mat` header over a local vector of points. -/
  | points (ps : List Point2f)
  /-- The constant `cv::RANSAC`. -/
  | ransac
  deriving DecidableEq, Repr

/-- One call of a library function, as recorded in the trace. -/
structure LibCall where
  fn : String
  args : List LibArg
  deriving DecidableEq, Repr

/-- Everything a library call hands back to a wrapper. -/
structure LibResult where
  /-- The returned `int`, `bool` or `double`. -/
  value : Scalar
  /-- The returned `cv::Mat`. -/
  mat : Mat
  /-- Component `k` of a returned `cv::Scalar` or `cv::Vec3d`. -/
  comp : Nat → Scalar
  /-- The locals of the wrapper the library has written, by name and field. -/
  out : String → Field → Scalar

/-- The wrapped library, as an arbitrary oracle. -/
structure Library where
  /-- A call that receives references into caller memory: the memory after
  the call, and the result or the error raised. -/
  call : String → List LibArg → Heap → Heap × Except CvException LibResult
  /-- The call `cv::findHomography(src, dst, cv::RANSAC, threshold, mask)` on
  local vectors: the matrix and the bytes written to the local `mask`. -/
  findHomographyRansac : List Point2f → List Point2f → Dbl →
    Except CvException (Mat × List Nat)
  /-- Whether the call `tmp.copyTo(dst)` into the caller's array at an address
  raises (a destination of fixed type or size that cannot take the matrix):
  the exception and the memory the call leaves, or `none` when it succeeds. -/
  copyToRaises : Mat → Nat → Heap → Option (CvException × Heap)

/-- The state a call runs in: caller memory and the library calls made so far. -/
structure World where
  heap : Heap
  trace : List LibCall

/-- Modelled from the spec: `calib_c.h`, which defines `throw_no_calib`, is
not among the sources.  The spec gives the calibration module one shared
routine raising an unsupported-configuration error that identifies the
missing module; this is the exception it raises. -/
def calibUnsupported : CvException :=
  ⟨ErrorCode.StsBadFunc, "The library is compiled without calib support"⟩

/-- Modelled from the spec: the shared routine of the calibration module
(declared in the absent `calib_c.h`); it never returns. -/
def throw_no_calib {α : Type} : Outcome α :=
  Outcome.raised (Thrown.cvError calibUnsupported)

/-! ## Argument expressions of the wrappers -/

/-- The expression `*p`: the pointee, or no value when `p` is null. -/
def deref (p : Handle) : Option LibArg := p.map LibArg.ref

/-- The expression `p ? *p : static_cast<...>(cv::noArray())`. -/
def orNoArray (p : Handle) : Option LibArg :=
  match p with
  | some a => some (LibArg.ref a)
  | none => some LibArg.noArray

/-- An `int` passed by value (also through a `static_cast` to an enumeration). -/
def int (v : Int) : Option LibArg := some (LibArg.val (Scalar.int v))

/-- A `bool` passed by value. -/
def bool (b : Bool) : Option LibArg := some (LibArg.val (Scalar.bool b))

/-- A `double` or `float` passed by value. -/
def real (v : Dbl) : Option LibArg := some (LibArg.val (Scalar.real v))

/-- A local of the wrapper passed by reference (`_fovx`) or by address (`&r`). -/
def loc (name : String) : Option LibArg := some (LibArg.loc name)

/-- The local `cv::Ptr<cv::Feature2D> ptr(p, [](cv::Feature2D*){})`. -/
def ptr (p : Handle) : Option LibArg := some (LibArg.ptr p)

/-! ## Writing results back -/

/-- The exchange `cv::swap(a, b)`: the pair after the call. -/
def swap (a b : Mat) : Mat × Mat := (b, a)

/-- The copy `tmp.copyTo(dst)`: the destination after the call. -/
def Mat.copyTo (tmp : Mat) (_dst : Mat) : Mat := tmp

/-- How a statement after the library call can fail. -/
inductive PostFault where
  /-- A null pointer is dereferenced: undefined behaviour. -/
  | null
  /-- An OpenCV call among the statements raises; the memory it leaves. -/
  | raised (e : CvException) (h : Heap)

/-- The statement `tmp.copyTo(*dst)`: a second OpenCV call, which can raise
after the wrapped call has succeeded; when it succeeds the destination holds
a copy of `tmp`. -/
def copyTo (lib : Library) (tmp : Mat) (dst : Handle) (h : Heap) : Except PostFault Heap :=
  match dst with
  | none => Except.error PostFault.null
  | some a =>
    match lib.copyToRaises tmp a h with
    | some (e, h2) => Except.error (PostFault.raised e h2)
    | none => Except.ok (h.setMat a (tmp.copyTo (h.mats a)))

/-- The statement `cv::swap(res, *out)`; the local `res` is dropped afterwards. -/
def swapInto (res : Mat) (out : Handle) (h : Heap) : Except PostFault Heap :=
  match out with
  | none => Except.error PostFault.null
  | some a => Except.ok (h.setMat a (swap res (h.mats a)).2)

/-- The statement `cv::swap(*out, res)`; the local `res` is dropped afterwards. -/
def swapFrom (out : Handle) (res : Mat) (h : Heap) : Except PostFault Heap :=
  match out with
  | none => Except.error PostFault.null
  | some a => Except.ok (h.setMat a (swap (h.mats a) res).1)

/-- The assignment `p->f = v` (`*p = v` for the field `self`). -/
def store (p : Handle) (f : Field) (v : Scalar) (h : Heap) : Except PostFault Heap :=
  match p with
  | none => Except.error PostFault.null
  | some a => Except.ok (h.setCell a f v)

/-- The body of a forwarding wrapper inside `#ifdef HAVE_OPENCV_CALIB`. -/
structure Forward where
  /-- The library function called. -/
  fn : String
  /-- The argument expressions in call order; `none` is a null dereference. -/
  args : List (Option LibArg)
  /-- Whether the wrapper returns the value of the call. -/
  returns : Bool
  /-- The statements after the call, which may call the library again. -/
  post : Library → LibResult → Heap → Except PostFault Heap

/-- All argument values, when no expression dereferences null. -/
def evalArgs : List (Option LibArg) → Option (List LibArg)
  | [] => some []
  | none :: _ => none
  | some a :: rest =>
    match evalArgs rest with
    | some as => some (a :: as)
    | none => none

/-- Run the body of a forwarding wrapper. -/
def execForward (lib : Library) (b : Forward) (w : World) : Outcome (Option Scalar) × World :=
  match evalArgs b.args with
  | none => (Outcome.undefined, w)
  | some args =>
    let trace := w.trace ++ [⟨b.fn, args⟩]
    match lib.call b.fn args w.heap with
    | (h1, Except.error e) => (Outcome.raised (Thrown.cvError e), ⟨h1, trace⟩)
    | (h1, Except.ok res) =>
      match b.post lib res h1 with
      | Except.error PostFault.null => (Outcome.undefined, ⟨h1, trace⟩)
      | Except.error (PostFault.raised e h2) => (Outcome.raised (Thrown.cvError e), ⟨h2, trace⟩)
      | Except.ok h2 =>
        (Outcome.returned (if b.returns then some res.value else none), ⟨h2, trace⟩)

/-! ## The tracker function `getHomographyMatrixFromMatchedFeatures` -/

/-- A `cv::KeyPoint`; only its `pt` is read. -/
structure KeyPoint where
  pt : Point2f
  deriving DecidableEq, Repr

/-- A `cv::DMatch`; only its `trainIdx` (an `int`) is read. -/
structure DMatch where
  queryIdx : Int
  trainIdx : Int
  deriving DecidableEq, Repr

/-- The count `cv::countNonZero(maskMat)` of a single-column 8-bit matrix. -/
def countNonZero (maskMat : List Nat) : Nat :=
  (maskMat.filter fun v => v ≠ 0).length

/-- The access `(*model)[modelIdx]` with an `int` index: `operator[]` is
unchecked, so a null vector or an index outside `0 .. size-1` is undefined. -/
def indexKeyPoint (v : Option (List KeyPoint)) (idx : Int) : Option KeyPoint :=
  match v with
  | none => none
  | some ks => if 0 ≤ idx then ks[idx.toNat]? else none

/-- The first loop (source lines 30-38), from row `i` on, over the remaining
rows of `maskMat`: the point pairs of the selected rows.  A failure is the
outcome that ends the call. -/
def gatherPoints (model observed : Option (List KeyPoint))
    (matches_ : Option (List (List DMatch))) :
    Nat → List Nat → List Point2f → List Point2f →
    Except (Outcome Bool) (List Point2f × List Point2f)
  | _, [], srcPtVec, dstPtVec => Except.ok (srcPtVec, dstPtVec)
  | i, v :: rest, srcPtVec, dstPtVec =>
    if v ≠ 0 then
      match matches_ with
      | none => Except.error Outcome.undefined
      | some ms =>
        match ms[i]? with
        | none => Except.error (Outcome.raised Thrown.outOfRange)
        | some row =>
          match row[0]? with
          | none => Except.error (Outcome.raised Thrown.outOfRange)
          | some m =>
            match indexKeyPoint model m.trainIdx with
            | none => Except.error Outcome.undefined
            | some mk =>
              match indexKeyPoint observed i with
              | none => Except.error Outcome.undefined
              | some ok =>
                gatherPoints model observed matches_ (i + 1) rest
                  (srcPtVec ++ [mk.pt]) (dstPtVec ++ [ok.pt])
    else gatherPoints model observed matches_ (i + 1) rest srcPtVec dstPtVec

/-- The second loop (source lines 49-55), with the running index `idx` into
`ransacMask`, over the remaining rows: the rows after the loop, or `none`
when `ransacMask[idx]` is read out of range. -/
def refineMask (ransacMask : List Nat) : Nat → List Nat → Option (List Nat)
  | _, [] => some []
  | idx, v :: rest =>
    if v ≠ 0 then
      match ransacMask[idx]? with
      | none => none
      | some r =>
        match refineMask ransacMask (idx + 1) rest with
        | none => none
        | some rest1 => some (r :: rest1)
    else
      match refineMask ransacMask idx rest with
      | none => none
      | some rest1 => some (v :: rest1)

/-- The result of the tracker function: how the call ends, the two
caller-owned objects after the call, and the library calls made. -/
structure TrackerResult where
  outcome : Outcome Bool
  mask : Option (List Nat)
  homography : Option Mat
  calls : List LibCall

/-- The part of the tracker function from line 25 on, given the local
`maskMat` and the count `nonZero`. -/
def trackerFrom (lib : Library) (model observed : Option (List KeyPoint))
    (matches_ : Option (List (List DMatch))) (mask : Option (List Nat))
    (randsacThreshold : Dbl) (homography : Option Mat)
    (maskMat : List Nat) (nonZero : Nat) : TrackerResult :=
  if nonZero < 4 then ⟨Outcome.returned false, mask, homography, []⟩
  else
    match gatherPoints model observed matches_ 0 maskMat [] [] with
    | Except.error o => ⟨o, mask, homography, []⟩
    | Except.ok (srcPtVec, dstPtVec) =>
      let call : LibCall := ⟨"cv::findHomography",
        [LibArg.points srcPtVec, LibArg.points dstPtVec, LibArg.ransac,
          LibArg.val (Scalar.real randsacThreshold), LibArg.loc "ransacMask"]⟩
      match lib.findHomographyRansac srcPtVec dstPtVec randsacThreshold with
      | Except.error e => ⟨Outcome.raised (Thrown.cvError e), mask, homography, [call]⟩
      | Except.ok (result, ransacMask) =>
        if result.empty then ⟨Outcome.returned false, mask, homography, [call]⟩
        else
          match homography with
          | none => ⟨Outcome.undefined, mask, homography, [call]⟩
          | some old =>
            let homography1 := some (swap result old).2
            match refineMask ransacMask 0 maskMat with
            | none => ⟨Outcome.undefined, mask, homography1, [call]⟩
            | some maskMat1 =>
              ⟨Outcome.returned true, mask.map (fun _ => maskMat1), homography1, [call]⟩

/-- The body of `getHomographyMatrixFromMatchedFeatures` inside
`#ifdef HAVE_OPENCV_CALIB` (source lines 23-56).  The read-only vectors are
given by their content (`none` for a null pointer); `mask` is the content of
the caller's single-column 8-bit matrix, which `maskMat` shares, or `none`
for a null pointer; `homography` is the content of `*homography`.  Container
sizes are taken to fit an `int`, as the rows of a `cv::Mat` do. -/
def getHomographyMatrixFromMatchedFeatures (lib : Library)
    (model observed : Option (List KeyPoint)) (matches_ : Option (List (List DMatch)))
    (mask : Option (List Nat)) (randsacThreshold : Dbl) (homography : Option Mat) :
    TrackerResult :=
  match mask, matches_ with
  | some m, _ =>
    trackerFrom lib model observed matches_ mask randsacThreshold homography m (countNonZero m)
  | none, some ms =>
    trackerFrom lib model observed matches_ mask randsacThreshold homography
      (List.replicate ms.length 255) ms.length
  | none, none => ⟨Outcome.undefined, mask, homography, []⟩

/-- The tracker function on caller memory: `mask` and `homography` are
pointers to matrices of the heap.  The homography is written last, as the
mask rows are written to the buffer that `maskMat` shares with `*mask`. -/
def execTracker (lib : Library) (model observed : Option (List KeyPoint))
    (matches_ : Option (List (List DMatch))) (mask : Handle) (randsacThreshold : Dbl)
    (homography : Handle) (w : World) : Outcome (Option Scalar) × World :=
  let r := getHomographyMatrixFromMatchedFeatures lib model observed matches_
    (mask.map fun a => (w.heap.mats a).elems) randsacThreshold (homography.map w.heap.mats)
  let h1 := match mask, r.mask with
    | some a, some m => w.heap.setMat a ⟨m⟩
    | _, _ => w.heap
  let h2 := match homography, r.homography with
    | some a, some m => h1.setMat a m
    | _, _ => h1
  let o : Outcome (Option Scalar) := match r.outcome with
    | Outcome.returned b => Outcome.returned (some (Scalar.bool b))
    | Outcome.raised e => Outcome.raised e
    | Outcome.undefined => Outcome.undefined
  (o, ⟨h2, w.trace ++ r.calls⟩)

/-! ## The exported functions of `calib_c.cpp` -/

/-- A call of one of the 49 exported functions of `calib_c.cpp` with its
arguments, in the order of the source.  Pointers are handles; `int`, `bool`
and `double` / `float` parameters are `Int`, `Bool` and `Dbl`. -/
inductive CalibCall where
  | cveEstimateAffine3D (src dst out inliers : Handle) (ransacThreshold confidence : Dbl)
  | getHomographyMatrixFromMatchedFeatures (model observed : Option (List KeyPoint))
      (matches_ : Option (List (List DMatch))) (mask : Handle) (randsacThreshold : Dbl)
      (homography : Handle)
  | cveFindCirclesGrid (image patternSize centers : Handle) (flags : Int) (blobDetector : Handle)
  | cveTriangulatePoints (projMat1 projMat2 projPoints1 projPoints2 points4D : Handle)
  | cveCorrectMatches (f points1 points2 newPoints1 newPoints2 : Handle)
  | cveFindChessboardCornersSB (image patternSize corners : Handle) (flags : Int)
  | cveEstimateChessboardSharpness (image patternSize corners : Handle) (riseDistance : Dbl)
      (vertical : Bool) (sharpness result : Handle)
  | cveDrawChessboardCorners (image patternSize corners : Handle) (patternWasFound : Bool)
  | cveFilterSpeckles (img : Handle) (newVal : Dbl) (maxSpeckleSize : Int) (maxDiff : Dbl)
      (buf : Handle)
  | cveFindChessboardCorners (image patternSize corners : Handle) (flags : Int)
  | cveFind4QuadCornerSubpix (image corners regionSize : Handle)
  | cveRodrigues (src dst jacobian : Handle)
  | cveCalibrateCamera (objectPoints imagePoints imageSize cameraMatrix distCoeffs rvecs
      tvecs : Handle) (flags : Int) (criteria : Handle)
  | cveReprojectImageTo3D (disparity threeDImage q : Handle) (handleMissingValues : Bool)
      (ddepth : Int)
  | cveConvertPointsToHomogeneous (src dst : Handle)
  | cveConvertPointsFromHomogeneous (src dst : Handle)
  | cveFindEssentialMat (points1 points2 cameraMatrix : Handle) (method : Int)
      (prob threshold : Dbl) (maxIter : Int) (mask essentialMat : Handle)
  | cveFindFundamentalMat (points1 points2 dst : Handle) (method : Int) (param1 param2 : Dbl)
      (mask : Handle)
  | cveFindHomography (srcPoints dstPoints dst : Handle) (method : Int)
      (ransacReprojThreshold : Dbl) (mask : Handle)
  | cveComputeCorrespondEpilines (points : Handle) (whichImage : Int) (f lines : Handle)
  | cveProjectPoints (objPoints rvec tvec cameraMatrix distCoeffs imagePoints jacobian : Handle)
      (aspectRatio : Dbl)
  | cveCalibrationMatrixValues (cameraMatrix imageSize : Handle)
      (apertureWidth apertureHeight : Dbl)
      (fovx fovy focalLength principalPoint aspectRatio : Handle)
  | cveStereoCalibrate (objectPoints imagePoints1 imagePoints2 cameraMatrix1 distCoeffs1
      cameraMatrix2 distCoeffs2 imageSize r t e f : Handle) (flags : Int) (criteria : Handle)
  | cveSolvePnP (objectPoints imagePoints cameraMatrix distCoeffs rvec tvec : Handle)
      (useExtrinsicGuess : Bool) (flags : Int)
  | cveSolvePnPRansac (objectPoints imagePoints cameraMatrix distCoeffs rvec tvec : Handle)
      (useExtrinsicGuess : Bool) (iterationsCount : Int) (reprojectionError : Dbl)
      (confident : Dbl) (inliers : Handle) (flags : Int)
  | cveSolveP3P (objectPoints imagePoints cameraMatrix distCoeffs rvecs tvecs : Handle)
      (flags : Int)
  | cveSolvePnPRefineLM (objectPoints imagePoints cameraMatrix distCoeffs rvec tvec
      criteria : Handle)
  | cveSolvePnPRefineVVS (objectPoints imagePoints cameraMatrix distCoeffs rvec tvec
      criteria : Handle) (VVSlambda : Dbl)
  | cveSolvePnPGeneric (objectPoints imagePoints cameraMatrix distCoeffs rvecs tvecs : Handle)
      (useExtrinsicGuess : Bool) (flags : Int) (rvec tvec reprojectionError : Handle)
  | cveGetOptimalNewCameraMatrix (cameraMatrix distCoeffs imageSize : Handle) (alpha : Dbl)
      (newImgSize validPixROI : Handle) (centerPrincipalPoint : Bool)
      (newCameraMatrix : Handle)
  | cveInitCameraMatrix2D (objectPoints imagePoints imageSize : Handle) (aspectRatio : Dbl)
      (cameraMatrix : Handle)
  | cveFisheyeProjectPoints (objectPoints imagePoints rvec tvec K D : Handle) (alpha : Dbl)
      (jacobian : Handle)
  | cveFisheyeDistortPoints (undistored distorted K D : Handle) (alpha : Dbl)
  | cveFisheyeUndistortPoints (distorted undistorted K D R P : Handle)
  | cveFisheyeInitUndistortRectifyMap (K D R P size : Handle) (m1Type : Int)
      (map1 map2 : Handle)
  | cveFisheyeUndistortImage (distorted undistored K D Knew newSize : Handle)
  | cveFisheyeEstimateNewCameraMatrixForUndistortRectify (K D imageSize R P : Handle)
      (balance : Dbl) (newSize : Handle) (fovScale : Dbl)
  | cveFisheyeStereoRectify (K1 D1 K2 D2 imageSize R tvec R1 R2 P1 P2 Q : Handle) (flags : Int)
      (newImageSize : Handle) (balance fovScale : Dbl)
  | cveFisheyeCalibrate (objectPoints imagePoints imageSize K D rvecs tvecs : Handle)
      (flags : Int) (criteria : Handle)
  | cveFisheyeStereoCalibrate (objectPoints imagePoints1 imagePoints2 K1 D1 K2 D2 imageSize
      R T : Handle) (flags : Int) (criteria : Handle)
  | cveInitUndistortRectifyMap (cameraMatrix distCoeffs r newCameraMatrix size : Handle)
      (m1type : Int) (map1 map2 : Handle)
  | cveUndistort (src dst cameraMatrix distorCoeffs newCameraMatrix : Handle)
  | cveUndistortPoints (src dst cameraMatrix distCoeffs r p : Handle)
  | cveGetDefaultNewCameraMatrix (cameraMatrix imgsize : Handle) (centerPrincipalPoint : Bool)
      (cm : Handle)
  | cveEstimateAffine2D (from_ to_ inliners : Handle) (method : Int)
      (ransacReprojThreshold : Dbl) (maxIters : Int) (confidence : Dbl) (refineIters : Int)
      (affine : Handle)
  | cveEstimateAffinePartial2D (from_ to_ inliners : Handle) (method : Int)
      (ransacReprojThreshold : Dbl) (maxIters : Int) (confidence : Dbl) (refineIters : Int)
      (affine : Handle)
  | cveCalibrateHandEye (R_gripper2base t_gripper2base R_target2cam t_target2cam
      R_cam2gripper t_cam2gripper : Handle) (method : Int)
  | cveRQDecomp3x3 (src out mtxR mtxQ Qx Qy Qz : Handle)
  | cveDecomposeProjectionMatrix (projMatrix cameraMatrix rotMatrix transVect rotMatrixX
      rotMatrixY rotMatrixZ eulerAngles : Handle)

/-- No statement after the library call. -/
def noPost : Library → LibResult → Heap → Except PostFault Heap := fun _ _ h => Except.ok h

/-- The enabled body of an exported function: a forwarder, or the tracker. -/
inductive Body where
  | forward (b : Forward)
  | tracker (model observed : Option (List KeyPoint)) (matches_ : Option (List (List DMatch)))
      (mask : Handle) (randsacThreshold : Dbl) (homography : Handle)

open CalibCall in
/-- The code of each exported function inside `#ifdef HAVE_OPENCV_CALIB`. -/
def body : CalibCall → Body
  | cveEstimateAffine3D src dst out inliers ransacThreshold confidence =>
    Body.forward ⟨"cv::estimateAffine3D",
      [deref src, deref dst, deref out, deref inliers, real ransacThreshold, real confidence],
      true, noPost⟩
  | CalibCall.getHomographyMatrixFromMatchedFeatures model observed matches_ mask
      randsacThreshold homography =>
    Body.tracker model observed matches_ mask randsacThreshold homography
  | cveFindCirclesGrid image patternSize centers flags blobDetector =>
    Body.forward ⟨"cv::findCirclesGrid",
      [deref image, deref patternSize, deref centers, int flags, ptr blobDetector],
      true, noPost⟩
  | cveTriangulatePoints projMat1 projMat2 projPoints1 projPoints2 points4D =>
    Body.forward ⟨"cv::triangulatePoints",
      [deref projMat1, deref projMat2, deref projPoints1, deref projPoints2, deref points4D],
      false, noPost⟩
  | cveCorrectMatches f points1 points2 newPoints1 newPoints2 =>
    Body.forward ⟨"cv::correctMatches",
      [deref f, deref points1, deref points2, deref newPoints1, deref newPoints2],
      false, noPost⟩
  | cveFindChessboardCornersSB image patternSize corners flags =>
    Body.forward ⟨"cv::findChessboardCornersSB",
      [deref image, deref patternSize, deref corners, int flags], true, noPost⟩
  | cveEstimateChessboardSharpness image patternSize corners riseDistance vertical sharpness
      result =>
    Body.forward ⟨"cv::estimateChessboardSharpness",
      [deref image, deref patternSize, deref corners, real riseDistance, bool vertical,
        orNoArray sharpness],
      false,
      fun _ r h => do
        let h ← store result (Field.val 0) (r.comp 0) h
        let h ← store result (Field.val 1) (r.comp 1) h
        let h ← store result (Field.val 2) (r.comp 2) h
        store result (Field.val 3) (r.comp 3) h⟩
  | cveDrawChessboardCorners image patternSize corners patternWasFound =>
    Body.forward ⟨"cv::drawChessboardCorners",
      [deref image, deref patternSize, deref corners, bool patternWasFound], false, noPost⟩
  | cveFilterSpeckles img newVal maxSpeckleSize maxDiff buf =>
    Body.forward ⟨"cv::filterSpeckles",
      [deref img, real newVal, int maxSpeckleSize, real maxDiff, orNoArray buf],
      false, noPost⟩
  | cveFindChessboardCorners image patternSize corners flags =>
    Body.forward ⟨"cv::findChessboardCorners",
      [deref image, deref patternSize, deref corners, int flags], true, noPost⟩
  | cveFind4QuadCornerSubpix image corners regionSize =>
    Body.forward ⟨"cv::find4QuadCornerSubpix",
      [deref image, deref corners, deref regionSize], true, noPost⟩
  | cveRodrigues src dst jacobian =>
    Body.forward ⟨"cv::Rodrigues", [deref src, deref dst, orNoArray jacobian], false, noPost⟩
  | cveCalibrateCamera objectPoints imagePoints imageSize cameraMatrix distCoeffs rvecs tvecs
      flags criteria =>
    Body.forward ⟨"cv::calibrateCamera",
      [deref objectPoints, deref imagePoints, deref imageSize, deref cameraMatrix,
        deref distCoeffs, deref rvecs, deref tvecs, int flags, deref criteria],
      true, noPost⟩
  | cveReprojectImageTo3D disparity threeDImage q handleMissingValues ddepth =>
    Body.forward ⟨"cv::reprojectImageTo3D",
      [deref disparity, deref threeDImage, deref q, bool handleMissingValues, int ddepth],
      false, noPost⟩
  | cveConvertPointsToHomogeneous src dst =>
    Body.forward ⟨"cv::convertPointsToHomogeneous", [deref src, deref dst], false, noPost⟩
  | cveConvertPointsFromHomogeneous src dst =>
    Body.forward ⟨"cv::convertPointsFromHomogeneous", [deref src, deref dst], false, noPost⟩
  | cveFindEssentialMat points1 points2 cameraMatrix method prob threshold maxIter mask
      essentialMat =>
    Body.forward ⟨"cv::findEssentialMat",
      [deref points1, deref points2, deref cameraMatrix, int method, real prob,
        real threshold, int maxIter, orNoArray mask],
      false, fun _ res h => swapInto res.mat essentialMat h⟩
  | cveFindFundamentalMat points1 points2 dst method param1 param2 mask =>
    Body.forward ⟨"cv::findFundamentalMat",
      [deref points1, deref points2, int method, real param1, real param2, orNoArray mask],
      false, fun lib tmp h => copyTo lib tmp.mat dst h⟩
  | cveFindHomography srcPoints dstPoints dst method ransacReprojThreshold mask =>
    Body.forward ⟨"cv::findHomography",
      [deref srcPoints, deref dstPoints, int method, real ransacReprojThreshold,
        orNoArray mask],
      false, fun lib tmp h => copyTo lib tmp.mat dst h⟩
  | cveComputeCorrespondEpilines points whichImage f lines =>
    Body.forward ⟨"cv::computeCorrespondEpilines",
      [deref points, int whichImage, deref f, deref lines], false, noPost⟩
  | cveProjectPoints objPoints rvec tvec cameraMatrix distCoeffs imagePoints jacobian
      aspectRatio =>
    Body.forward ⟨"cv::projectPoints",
      [deref objPoints, deref rvec, deref tvec, deref cameraMatrix, orNoArray distCoeffs,
        deref imagePoints, orNoArray jacobian, real aspectRatio],
      false, noPost⟩
  | cveCalibrationMatrixValues cameraMatrix imageSize apertureWidth apertureHeight fovx fovy
      focalLength principalPoint aspectRatio =>
    Body.forward ⟨"cv::calibrationMatrixValues",
      [deref cameraMatrix, deref imageSize, real apertureWidth, real apertureHeight,
        loc "_fovx", loc "_fovy", loc "_focalLength", loc "_principalPoint",
        loc "_aspectRatio"],
      false,
      fun _ r h => do
        let h ← store fovx Field.self (r.out "_fovx" Field.self) h
        let h ← store fovy Field.self (r.out "_fovy" Field.self) h
        let h ← store focalLength Field.self (r.out "_focalLength" Field.self) h
        let h ← store aspectRatio Field.self (r.out "_aspectRatio" Field.self) h
        let h ← store principalPoint Field.x (r.out "_principalPoint" Field.x) h
        store principalPoint Field.y (r.out "_principalPoint" Field.y) h⟩
  | cveStereoCalibrate objectPoints imagePoints1 imagePoints2 cameraMatrix1 distCoeffs1
      cameraMatrix2 distCoeffs2 imageSize r t e f flags criteria =>
    Body.forward ⟨"cv::stereoCalibrate",
      [deref objectPoints, deref imagePoints1, deref imagePoints2, deref cameraMatrix1,
        deref distCoeffs1, deref cameraMatrix2, deref distCoeffs2, deref imageSize, deref r,
        deref t, deref e, deref f, int flags, deref criteria],
      true, noPost⟩
  | cveSolvePnP objectPoints imagePoints cameraMatrix distCoeffs rvec tvec useExtrinsicGuess
      flags =>
    Body.forward ⟨"cv::solvePnP",
      [deref objectPoints, deref imagePoints, deref cameraMatrix, deref distCoeffs,
        deref rvec, deref tvec, bool useExtrinsicGuess, int flags],
      true, noPost⟩
  | cveSolvePnPRansac objectPoints imagePoints cameraMatrix distCoeffs rvec tvec
      useExtrinsicGuess iterationsCount reprojectionError confident inliers flags =>
    Body.forward ⟨"cv::solvePnPRansac",
      [deref objectPoints, deref imagePoints, deref cameraMatrix, orNoArray distCoeffs,
        deref rvec, deref tvec, bool useExtrinsicGuess, int iterationsCount,
        real reprojectionError, real confident, orNoArray inliers, int flags],
      true, noPost⟩
  | cveSolveP3P objectPoints imagePoints cameraMatrix distCoeffs rvecs tvecs flags =>
    Body.forward ⟨"cv::solveP3P",
      [deref objectPoints, deref imagePoints, deref cameraMatrix, deref distCoeffs,
        deref rvecs, deref tvecs, int flags],
      true, noPost⟩
  | cveSolvePnPRefineLM objectPoints imagePoints cameraMatrix distCoeffs rvec tvec criteria =>
    Body.forward ⟨"cv::solvePnPRefineLM",
      [deref objectPoints, deref imagePoints, deref cameraMatrix, orNoArray distCoeffs,
        deref rvec, deref tvec, deref criteria],
      false, noPost⟩
  | cveSolvePnPRefineVVS objectPoints imagePoints cameraMatrix distCoeffs rvec tvec criteria
      VVSlambda =>
    Body.forward ⟨"cv::solvePnPRefineVVS",
      [deref objectPoints, deref imagePoints, deref cameraMatrix, orNoArray distCoeffs,
        deref rvec, deref tvec, deref criteria, real VVSlambda],
      false, noPost⟩
  | cveSolvePnPGeneric objectPoints imagePoints cameraMatrix distCoeffs rvecs tvecs
      useExtrinsicGuess flags rvec tvec reprojectionError =>
    Body.forward ⟨"cv::solvePnPGeneric",
      [deref objectPoints, deref imagePoints, deref cameraMatrix, deref distCoeffs,
        deref rvecs, deref tvecs, bool useExtrinsicGuess, int flags, orNoArray rvec,
        orNoArray tvec, orNoArray reprojectionError],
      true, noPost⟩
  | cveGetOptimalNewCameraMatrix cameraMatrix distCoeffs imageSize alpha newImgSize
      validPixROI centerPrincipalPoint newCameraMatrix =>
    Body.forward ⟨"cv::getOptimalNewCameraMatrix",
      [deref cameraMatrix, orNoArray distCoeffs, deref imageSize, real alpha,
        deref newImgSize, loc "r", bool centerPrincipalPoint],
      false,
      fun _ m h => do
        let h ←
          if validPixROI.isSome then do
            let h ← store validPixROI Field.x (m.out "r" Field.x) h
            let h ← store validPixROI Field.y (m.out "r" Field.y) h
            let h ← store validPixROI Field.width (m.out "r" Field.width) h
            store validPixROI Field.height (m.out "r" Field.height) h
          else Except.ok h
        swapInto m.mat newCameraMatrix h⟩
  | cveInitCameraMatrix2D objectPoints imagePoints imageSize aspectRatio cameraMatrix =>
    Body.forward ⟨"cv::initCameraMatrix2D",
      [deref objectPoints, deref imagePoints, deref imageSize, real aspectRatio],
      false, fun _ m h => swapInto m.mat cameraMatrix h⟩
  | cveFisheyeProjectPoints objectPoints imagePoints rvec tvec K D alpha jacobian =>
    Body.forward ⟨"cv::fisheye::projectPoints",
      [deref objectPoints, deref imagePoints, deref rvec, deref tvec, deref K, deref D,
        real alpha, orNoArray jacobian],
      false, noPost⟩
  | cveFisheyeDistortPoints undistored distorted K D alpha =>
    Body.forward ⟨"cv::fisheye::distortPoints",
      [deref undistored, deref distorted, deref K, deref D, real alpha], false, noPost⟩
  | cveFisheyeUndistortPoints distorted undistorted K D R P =>
    Body.forward ⟨"cv::fisheye::undistortPoints",
      [deref distorted, deref undistorted, deref K, deref D, orNoArray R, orNoArray P],
      false, noPost⟩
  | cveFisheyeInitUndistortRectifyMap K D R P size m1Type map1 map2 =>
    Body.forward ⟨"cv::fisheye::initUndistortRectifyMap",
      [deref K, deref D, deref R, deref P, deref size, int m1Type, deref map1,
        orNoArray map2],
      false, noPost⟩
  | cveFisheyeUndistortImage distorted undistored K D Knew newSize =>
    Body.forward ⟨"cv::fisheye::undistortImage",
      [deref distorted, deref undistored, deref K, deref D, orNoArray Knew, deref newSize],
      false, noPost⟩
  | cveFisheyeEstimateNewCameraMatrixForUndistortRectify K D imageSize R P balance newSize
      fovScale =>
    Body.forward ⟨"cv::fisheye::estimateNewCameraMatrixForUndistortRectify",
      [deref K, deref D, deref imageSize, deref R, deref P, real balance, deref newSize,
        real fovScale],
      false, noPost⟩
  | cveFisheyeStereoRectify K1 D1 K2 D2 imageSize R tvec R1 R2 P1 P2 Q flags newImageSize
      balance fovScale =>
    Body.forward ⟨"cv::fisheye::stereoRectify",
      [deref K1, deref D1, deref K2, deref D2, deref imageSize, deref R, deref tvec,
        deref R1, deref R2, deref P1, deref P2, deref Q, int flags, deref newImageSize,
        real balance, real fovScale],
      false, noPost⟩
  | cveFisheyeCalibrate objectPoints imagePoints imageSize K D rvecs tvecs flags criteria =>
    Body.forward ⟨"cv::fisheye::calibrate",
      [deref objectPoints, deref imagePoints, deref imageSize, deref K, deref D,
        deref rvecs, deref tvecs, int flags, deref criteria],
      true, noPost⟩
  | cveFisheyeStereoCalibrate objectPoints imagePoints1 imagePoints2 K1 D1 K2 D2 imageSize R T
      flags criteria =>
    Body.forward ⟨"cv::fisheye::stereoCalibrate",
      [deref objectPoints, deref imagePoints1, deref imagePoints2, deref K1, deref D1,
        deref K2, deref D2, deref imageSize, deref R, deref T, int flags, deref criteria],
      true, noPost⟩
  | cveInitUndistortRectifyMap cameraMatrix distCoeffs r newCameraMatrix size m1type map1
      map2 =>
    Body.forward ⟨"cv::initUndistortRectifyMap",
      [deref cameraMatrix, deref distCoeffs, orNoArray r, deref newCameraMatrix, deref size,
        int m1type, deref map1, orNoArray map2],
      false, noPost⟩
  | cveUndistort src dst cameraMatrix distorCoeffs newCameraMatrix =>
    Body.forward ⟨"cv::undistort",
      [deref src, deref dst, deref cameraMatrix, deref distorCoeffs,
        orNoArray newCameraMatrix],
      false, noPost⟩
  | cveUndistortPoints src dst cameraMatrix distCoeffs r p =>
    Body.forward ⟨"cv::undistortPoints",
      [deref src, deref dst, deref cameraMatrix, deref distCoeffs, orNoArray r, orNoArray p],
      false, noPost⟩
  | cveGetDefaultNewCameraMatrix cameraMatrix imgsize centerPrincipalPoint cm =>
    Body.forward ⟨"cv::getDefaultNewCameraMatrix",
      [deref cameraMatrix, deref imgsize, bool centerPrincipalPoint],
      false, fun _ res h => swapFrom cm res.mat h⟩
  | cveEstimateAffine2D from_ to_ inliners method ransacReprojThreshold maxIters confidence
      refineIters affine =>
    Body.forward ⟨"cv::estimateAffine2D",
      [deref from_, deref to_, orNoArray inliners, int method, real ransacReprojThreshold,
        int maxIters, real confidence, int refineIters],
      false, fun _ m h => swapInto m.mat affine h⟩
  | cveEstimateAffinePartial2D from_ to_ inliners method ransacReprojThreshold maxIters
      confidence refineIters affine =>
    Body.forward ⟨"cv::estimateAffinePartial2D",
      [deref from_, deref to_, orNoArray inliners, int method, real ransacReprojThreshold,
        int maxIters, real confidence, int refineIters],
      false, fun _ m h => swapInto m.mat affine h⟩
  | cveCalibrateHandEye R_gripper2base t_gripper2base R_target2cam t_target2cam R_cam2gripper
      t_cam2gripper method =>
    Body.forward ⟨"cv::calibrateHandEye",
      [deref R_gripper2base, deref t_gripper2base, deref R_target2cam, deref t_target2cam,
        deref R_cam2gripper, deref t_cam2gripper, int method],
      false, noPost⟩
  | cveRQDecomp3x3 src out mtxR mtxQ Qx Qy Qz =>
    Body.forward ⟨"cv::RQDecomp3x3",
      [deref src, deref mtxR, deref mtxQ, orNoArray Qx, orNoArray Qy, orNoArray Qz],
      false,
      fun _ result h => do
        let h ← store out Field.x (result.comp 0) h
        let h ← store out Field.y (result.comp 1) h
        store out Field.z (result.comp 2) h⟩
  | cveDecomposeProjectionMatrix projMatrix cameraMatrix rotMatrix transVect rotMatrixX
      rotMatrixY rotMatrixZ eulerAngles =>
    Body.forward ⟨"cv::decomposeProjectionMatrix",
      [deref projMatrix, deref cameraMatrix, deref rotMatrix, deref transVect,
        orNoArray rotMatrixX, orNoArray rotMatrixY, orNoArray rotMatrixZ,
        orNoArray eulerAngles],
      false, noPost⟩

/-- Run an enabled body. -/
def exec (lib : Library) (b : Body) (w : World) : Outcome (Option Scalar) × World :=
  match b with
  | Body.forward f => execForward lib f w
  | Body.tracker model observed matches_ mask randsacThreshold homography =>
    execTracker lib model observed matches_ mask randsacThreshold homography w

/-- An exported function of `calib_c.cpp`, called in the build configuration
given by `HAVE_OPENCV_CALIB`:
`#ifdef HAVE_OPENCV_CALIB` body `#else throw_no_calib(); #endif`. -/
def run (HAVE_OPENCV_CALIB : Bool) (lib : Library) (c : CalibCall) (w : World) :
    Outcome (Option Scalar) × World :=
  if HAVE_OPENCV_CALIB then exec lib (body c) w else (throw_no_calib, w)

/-! ## What the specification says of the calibration wrappers -/

/-- What the specification asks the library to receive for an optional array
handle: `cv::noArray()` for null, the pointed-to array otherwise. -/
def optionalArray (p : Handle) : LibArg :=
  match p with
  | none => LibArg.noArray
  | some a => LibArg.ref a

/-- The caller-owned matrix output of the copy-style and swap-style wrappers
named by the specification. -/
def matrixOutput : CalibCall → Option Handle
  | CalibCall.cveFindHomography _ _ dst _ _ _ => some dst
  | CalibCall.cveFindFundamentalMat _ _ dst _ _ _ _ => some dst
  | CalibCall.cveFindEssentialMat _ _ _ _ _ _ _ _ essentialMat => some essentialMat
  | CalibCall.cveGetOptimalNewCameraMatrix _ _ _ _ _ _ _ newCameraMatrix => some newCameraMatrix
  | CalibCall.cveInitCameraMatrix2D _ _ _ _ cameraMatrix => some cameraMatrix
  | CalibCall.cveGetDefaultNewCameraMatrix _ _ _ cm => some cm
  | CalibCall.cveEstimateAffine2D _ _ _ _ _ _ _ _ affine => some affine
  | CalibCall.cveEstimateAffinePartial2D _ _ _ _ _ _ _ _ affine => some affine
  | _ => none

/-- The exception raised by `throw_no_depthai` (header line 31):
`CV_Error(cv::Error::StsBadFunc, "The library is compiled without depthai support")`. -/
def depthaiUnsupported : CvException :=
  ⟨ErrorCode.StsBadFunc, "The library is compiled without depthai support"⟩

/-- The routine `static inline CV_NORETURN void throw_no_depthai()` of the
`#else` branch of the header. -/
def throw_no_depthai {α : Type} : Outcome α :=
  Outcome.raised (Thrown.cvError depthaiUnsupported)

/-- The types of namespace `dai` (and `dai::node`) named by the header. -/
inductive DaiType where
  | Pipeline
  | Node
  | Device
  | DataOutputQueue
  | ImgFrame
  | ColorCamera
  | MonoCamera
  | XLinkOut
  | NeuralNetwork
  | StereoDepth
  deriving DecidableEq, Repr

/-- The types occurring in the exported declarations. -/
inductive CType where
  | void
  | int
  | bool
  | cvString
  | vectorOfString
  | dai (t : DaiType)
  | sharedPtr (t : CType)
  | ptr (t : CType)
  deriving DecidableEq, Repr

/-- The `dai` types a type names. -/
def CType.daiTypes : CType → List DaiType
  | CType.dai t => [t]
  | CType.sharedPtr t => t.daiTypes
  | CType.ptr t => t.daiTypes
  | _ => []

/-- An exported declaration `CVAPI(ret) name(params);`. -/
structure Decl where
  name : String
  ret : CType
  params : List CType
  deriving DecidableEq, Repr

/-- The `dai` types named by a declaration. -/
def Decl.daiTypes (d : Decl) : List DaiType :=
  d.ret.daiTypes ++ d.params.flatMap CType.daiTypes

/-- The type `T*`. -/
def ptrTo (t : DaiType) : CType := CType.ptr (CType.dai t)

/-- The type `std::shared_ptr<T>**`. -/
def sharedPtrPtrPtr (t : DaiType) : CType :=
  CType.ptr (CType.ptr (CType.sharedPtr (CType.dai t)))

/-- The type `void*`. -/
def voidPtr : CType := CType.ptr CType.void

open DaiType in
/-- The exported declarations of the header (lines 51-104).  They stand
after the `#endif` of line 46, so the flag does not select among them. -/
def exportedDecls (_HAVE_DEPTHAI : Bool) : List Decl :=
  [ ⟨"daiPipelineCreate", ptrTo Pipeline, []⟩,
    ⟨"daiPipelineRelease", CType.void, [CType.ptr (ptrTo Pipeline)]⟩,
    ⟨"daiPipelineGetOpenVINOVersion", CType.int, [ptrTo Pipeline]⟩,
    ⟨"daiPipelineCreateColorCamera", ptrTo ColorCamera,
      [ptrTo Pipeline, sharedPtrPtrPtr ColorCamera, CType.ptr (ptrTo Node)]⟩,
    ⟨"daiColorCameraRelease", CType.void, [sharedPtrPtrPtr ColorCamera]⟩,
    ⟨"daiColorCameraGetPreview", voidPtr, [ptrTo ColorCamera]⟩,
    ⟨"daiColorCameraGetImageOrientation", CType.int, [ptrTo ColorCamera]⟩,
    ⟨"daiColorCameraSetImageOrientation", CType.void, [ptrTo ColorCamera, CType.int]⟩,
    ⟨"daiPipelineCreateMonoCamera", ptrTo MonoCamera,
      [ptrTo Pipeline, sharedPtrPtrPtr MonoCamera, CType.ptr (ptrTo Node)]⟩,
    ⟨"daiMonoCameraRelease", CType.void, [sharedPtrPtrPtr MonoCamera]⟩,
    ⟨"daiMonoCameraGetOutput", voidPtr, [ptrTo MonoCamera]⟩,
    ⟨"daiMonoCameraSetBoardSocket", CType.void, [ptrTo MonoCamera, CType.int]⟩,
    ⟨"daiMonoCameraGetBoardSocket", CType.int, [ptrTo MonoCamera]⟩,
    ⟨"daiMonoCameraGetImageOrientation", CType.int, [ptrTo MonoCamera]⟩,
    ⟨"daiMonoCameraSetImageOrientation", CType.void, [ptrTo MonoCamera, CType.int]⟩,
    ⟨"daiMonoCameraSetResolution", CType.void, [ptrTo MonoCamera, CType.int]⟩,
    ⟨"daiMonoCameraGetResolution", CType.int, [ptrTo MonoCamera]⟩,
    ⟨"daiPipelineCreateXLinkOut", ptrTo XLinkOut, [ptrTo Pipeline, sharedPtrPtrPtr XLinkOut]⟩,
    ⟨"daiXLinkOutRelease", CType.void, [sharedPtrPtrPtr XLinkOut]⟩,
    ⟨"daiXLinkOutGetInput", voidPtr, [ptrTo XLinkOut]⟩,
    ⟨"daiDeviceCreate", ptrTo Device, [ptrTo Pipeline]⟩,
    ⟨"daiDeviceCreate2", ptrTo Device, [ptrTo Pipeline, CType.bool]⟩,
    ⟨"daiDeviceRelease", CType.void, [CType.ptr (ptrTo Device)]⟩,
    ⟨"daiDeviceGetInputQueueNames", CType.void, [ptrTo Device, CType.ptr CType.vectorOfString]⟩,
    ⟨"daiDeviceGetOutputQueueNames", CType.void,
      [ptrTo Device, CType.ptr CType.vectorOfString]⟩,
    ⟨"daiDeviceGetOutputQueue", ptrTo DataOutputQueue,
      [ptrTo Device, CType.ptr CType.cvString, sharedPtrPtrPtr DataOutputQueue]⟩,
    ⟨"daiDataOutputQueueRelease", CType.void, [sharedPtrPtrPtr DataOutputQueue]⟩,
    ⟨"daiDataOutputQueueGetImgFrame", ptrTo ImgFrame,
      [ptrTo DataOutputQueue, sharedPtrPtrPtr ImgFrame]⟩,
    ⟨"daiImgFrameRelease", CType.void, [sharedPtrPtrPtr ImgFrame]⟩,
    ⟨"daiImgFrameGetData", voidPtr, [ptrTo ImgFrame]⟩,
    ⟨"daiNodeOutputLink", CType.void, [voidPtr, voidPtr]⟩,
    ⟨"daiNodeOutputGetName", CType.void, [voidPtr, CType.ptr CType.cvString]⟩,
    ⟨"daiNodeInputGetName", CType.void, [voidPtr, CType.ptr CType.cvString]⟩,
    ⟨"daiPipelineCreateNeuralNetwork", ptrTo NeuralNetwork,
      [ptrTo Pipeline, sharedPtrPtrPtr NeuralNetwork, CType.ptr (ptrTo Node)]⟩,
    ⟨"daiNeuralNetworkRelease", CType.void, [sharedPtrPtrPtr NeuralNetwork]⟩,
    ⟨"daiNeuralNetworkSetBlobPath", CType.void,
      [ptrTo NeuralNetwork, CType.ptr CType.cvString]⟩,
    ⟨"daiNeuralNetworkGetInput", voidPtr, [ptrTo NeuralNetwork]⟩,
    ⟨"daiPipelineCreateStereoDepth", ptrTo StereoDepth,
      [ptrTo Pipeline, sharedPtrPtrPtr StereoDepth, CType.ptr (ptrTo Node)]⟩,
    ⟨"daiStereoDepthRelease", CType.void, [sharedPtrPtrPtr StereoDepth]⟩,
    ⟨"daiStereoDepthGetLeft", voidPtr, [ptrTo StereoDepth]⟩,
    ⟨"daiStereoDepthGetRight", voidPtr, [ptrTo StereoDepth]⟩ ]

/-- The classes of the stub `namespace dai` (header lines 33-45). -/
def stubTypes : List DaiType :=
  [DaiType.Pipeline, DaiType.Node, DaiType.DataOutputQueue, DaiType.ImgFrame,
    DaiType.ColorCamera, DaiType.XLinkOut]

/-- The `dai` types declared before line 51: those of the SDK headers
included at lines 18-26 when the SDK is present, those of the stub otherwise. -/
def declaredTypes (HAVE_DEPTHAI : Bool) : List DaiType :=
  if HAVE_DEPTHAI then
    [DaiType.Pipeline, DaiType.Device, DaiType.DataOutputQueue, DaiType.ColorCamera,
      DaiType.MonoCamera, DaiType.XLinkOut, DaiType.NeuralNetwork, DaiType.StereoDepth,
      DaiType.Node, DaiType.ImgFrame]
  else stubTypes

/-- Whether every `dai` type a declaration names is declared. -/
def declarable (HAVE_DEPTHAI : Bool) (d : Decl) : Bool :=
  d.daiTypes.all fun t => decide (t ∈ declaredTypes HAVE_DEPTHAI)

/-- The `dai` types named by the exported declarations that are not declared. -/
def missingTypes (HAVE_DEPTHAI : Bool) : List DaiType :=
  (((exportedDecls HAVE_DEPTHAI).flatMap Decl.daiTypes).filter
    fun t => decide (t ∉ declaredTypes HAVE_DEPTHAI)).dedup

/-- Modelled from the spec: `depthai_c.cpp` is not among the sources (only
the declarations of the header are).  The native `dai::node::MonoCamera`,
by the scalar properties the binding exposes; `rest` stands for all other
state of the native object. -/
structure MonoCamera where
  boardSocket : Int
  resolution : Int
  imageOrientation : Int
  rest : Nat
  deriving DecidableEq, Repr

/-- Modelled from the spec: the native `dai::node::ColorCamera` (its
functions are in the absent `depthai_c.cpp`), by the scalar property the
binding exposes; `rest` stands for all other state of the native object. -/
structure ColorCamera where
  imageOrientation : Int
  rest : Nat
  deriving DecidableEq, Repr

/-- Modelled from the spec: the absent `daiMonoCameraSetBoardSocket`; a
setter writes the property directly on the native object; without the SDK
the call raises the unsupported error.  Returns the node after the call. -/
def daiMonoCameraSetBoardSocket (HAVE_DEPTHAI : Bool) (monoCamera : MonoCamera)
    (boardSocket : Int) : Outcome MonoCamera :=
  if HAVE_DEPTHAI then Outcome.returned { monoCamera with boardSocket := boardSocket }
  else throw_no_depthai

/-- Modelled from the spec: the absent `daiMonoCameraGetBoardSocket`; a
getter reads the property directly on the native object. -/
def daiMonoCameraGetBoardSocket (HAVE_DEPTHAI : Bool) (monoCamera : MonoCamera) :
    Outcome Int :=
  if HAVE_DEPTHAI then Outcome.returned monoCamera.boardSocket else throw_no_depthai

/-- Modelled from the spec: the absent `daiMonoCameraSetResolution`. -/
def daiMonoCameraSetResolution (HAVE_DEPTHAI : Bool) (camera : MonoCamera)
    (resolution : Int) : Outcome MonoCamera :=
  if HAVE_DEPTHAI then Outcome.returned { camera with resolution := resolution }
  else throw_no_depthai

/-- Modelled from the spec: the absent `daiMonoCameraGetResolution`. -/
def daiMonoCameraGetResolution (HAVE_DEPTHAI : Bool) (camera : MonoCamera) : Outcome Int :=
  if HAVE_DEPTHAI then Outcome.returned camera.resolution else throw_no_depthai

/-- Modelled from the spec: the absent `daiMonoCameraSetImageOrientation`. -/
def daiMonoCameraSetImageOrientation (HAVE_DEPTHAI : Bool) (camera : MonoCamera)
    (value : Int) : Outcome MonoCamera :=
  if HAVE_DEPTHAI then Outcome.returned { camera with imageOrientation := value }
  else throw_no_depthai

/-- Modelled from the spec: the absent `daiMonoCameraGetImageOrientation`. -/
def daiMonoCameraGetImageOrientation (HAVE_DEPTHAI : Bool) (camera : MonoCamera) :
    Outcome Int :=
  if HAVE_DEPTHAI then Outcome.returned camera.imageOrientation else throw_no_depthai

/-- Modelled from the spec: the absent `daiColorCameraSetImageOrientation`. -/
def daiColorCameraSetImageOrientation (HAVE_DEPTHAI : Bool) (obj : ColorCamera)
    (value : Int) : Outcome ColorCamera :=
  if HAVE_DEPTHAI then Outcome.returned { obj with imageOrientation := value }
  else throw_no_depthai

/-- Modelled from the spec: the absent `daiColorCameraGetImageOrientation`. -/
def daiColorCameraGetImageOrientation (HAVE_DEPTHAI : Bool) (obj : ColorCamera) :
    Outcome Int :=
  if HAVE_DEPTHAI then Outcome.returned obj.imageOrientation else throw_no_depthai

/-- Set a property, then read one, on the node the setter leaves. -/
def setThenGet {N : Type} (set : Outcome N) (get : N → Outcome Int) : Outcome Int :=
  match set with
  | Outcome.returned n => get n
  | Outcome.raised e => Outcome.raised e
  | Outcome.undefined => Outcome.undefined

/-! ## Sample inputs -/

/-- A heap of empty matrices and zero cells. -/
def heap0 : Heap := ⟨fun _ => ⟨[]⟩, fun _ _ => Scalar.int 0⟩

/-- A world over `heap0` with no call made yet. -/
def world0 : World := ⟨heap0, []⟩

/-- A library whose calls succeed with fixed results and leave memory alone. -/
def libOk : Library :=
  ⟨fun _ _ h => (h, Except.ok ⟨Scalar.int 7, ⟨[1, 2, 3]⟩, fun k => Scalar.real k,
      fun _ _ => Scalar.real 5⟩),
   fun src _ _ => Except.ok (⟨[1, 0, 0, 0, 1, 0, 0, 0, 1]⟩, src.map fun _ => 1),
   fun _ _ _ => none⟩

/-- The rows a mask selects (those with a non-zero entry), in increasing
order, when the first row of the list has number `i`. -/
def selectedRowsFrom : Nat → List Nat → List Nat
  | _, [] => []
  | i, v :: rest =>
    if v ≠ 0 then i :: selectedRowsFrom (i + 1) rest else selectedRowsFrom (i + 1) rest

/-- The rows a mask selects, in increasing order. -/
def selectedRows (maskMat : List Nat) : List Nat := selectedRowsFrom 0 maskMat

/-- The mask the specification lets the function work on: the caller's mask,
or for a null mask an all-255 mask with one row per row of `matches`. -/
def effectiveMask (mask : Option (List Nat)) (ms : List (List DMatch)) : List Nat :=
  match mask with
  | some m => m
  | none => List.replicate ms.length 255

/-- The number of selected correspondences, as the specification counts
them: the non-zero entries of the mask when a mask is given, the number of
rows of `matches` when the mask is null. -/
def selectedCount (mask : Option (List Nat)) (ms : List (List DMatch)) : Nat :=
  match mask with
  | some m => countNonZero m
  | none => ms.length

/-- The point pair the specification assigns to row `i`:
`(model[matches[i][0].trainIdx].pt, observed[i].pt)`, when all of it exists. -/
def pairOfRow (model observed : Option (List KeyPoint))
    (matches_ : Option (List (List DMatch))) (i : Nat) : Option (Point2f × Point2f) :=
  match model, observed, matches_ with
  | some mo, some ob, some ms =>
    match ms[i]?, ob[i]? with
    | some (m :: _), some o =>
      if 0 ≤ m.trainIdx then (mo[m.trainIdx.toNat]?).map fun mk => (mk.pt, o.pt) else none
    | _, _ => none
  | _, _, _ => none

/-- The library call the tracker function makes on the point lists `src`, `dst`. -/
def homographyCall (src dst : List Point2f) (randsacThreshold : Dbl) : LibCall :=
  ⟨"cv::findHomography",
    [LibArg.points src, LibArg.points dst, LibArg.ransac,
      LibArg.val (Scalar.real randsacThreshold), LibArg.loc "ransacMask"]⟩

/-- The contract of `cv::findHomography` on its output mask: one entry per
point pair passed in. -/
def MaskPerPair (lib : Library) : Prop :=
  ∀ (src dst : List Point2f) (thr : Dbl) (result : Mat) (ransacMask : List Nat),
    lib.findHomographyRansac src dst thr = Except.ok (result, ransacMask) →
    ransacMask.length = src.length

/-- A library that answers with a fixed matrix and an inlier mask taken from
a fixed pattern, one entry per point pair. -/
def libPattern : Library :=
  ⟨fun _ _ h => (h, Except.ok ⟨Scalar.int 7, ⟨[1, 2, 3]⟩, fun k => Scalar.real k,
      fun _ _ => Scalar.real 5⟩),
   fun src _ _ => Except.ok (⟨[1, 0, 0, 0, 1, 0, 0, 0, 1]⟩,
      ([1, 0, 1, 1, 0, 1, 1, 1] ++ List.replicate src.length 1).take src.length),
   fun _ _ _ => none⟩

/-- A library result with distinct values in every component. -/
def resultDistinct : LibResult :=
  ⟨Scalar.int 7, ⟨[1, 2, 3]⟩, fun k => Scalar.real (10 + k),
    fun name f => Scalar.real (name.length * 10 +
      match f with
      | Field.self => 0
      | Field.x => 1
      | Field.y => 2
      | Field.z => 3
      | Field.width => 4
      | Field.height => 5
      | Field.val k => 6 + k)⟩

/-- A library whose calls return `resultDistinct` and leave memory alone. -/
def libDistinct : Library :=
  ⟨fun _ _ h => (h, Except.ok resultDistinct),
   fun src _ _ => Except.ok (⟨[1, 0, 0, 0, 1, 0, 0, 0, 1]⟩, src.map fun _ => 1),
   fun _ _ _ => none⟩

/-- Five model keypoints. -/
def sampleModel : List KeyPoint :=
  [⟨⟨10, 11⟩⟩, ⟨⟨20, 21⟩⟩, ⟨⟨30, 31⟩⟩, ⟨⟨40, 41⟩⟩, ⟨⟨50, 51⟩⟩]

/-- Six observed keypoints. -/
def sampleObserved : List KeyPoint :=
  [⟨⟨1, 2⟩⟩, ⟨⟨3, 4⟩⟩, ⟨⟨5, 6⟩⟩, ⟨⟨7, 8⟩⟩, ⟨⟨9, 10⟩⟩, ⟨⟨11, 12⟩⟩]

/-- Six rows of matches; the second row has two matches. -/
def sampleMatches : List (List DMatch) :=
  [[⟨0, 4⟩], [⟨1, 3⟩, ⟨1, 0⟩], [⟨2, 2⟩], [⟨3, 1⟩], [⟨4, 0⟩], [⟨5, 2⟩]]

/-- A mask selecting the rows 0, 2, 3 and 5. -/
def sampleMask : List Nat := [255, 0, 1, 255, 0, 7]

/-! ## Lemmas on forwarding -/

theorem execForward_trace (lib : Library) (b : Forward) (w : World) {args : List LibArg}
    (h : evalArgs b.args = some args) :
    (execForward lib b w).2.trace = w.trace ++ [⟨b.fn, args⟩] := by
  simp only [execForward, h]
  split
  · rfl
  · split <;> rfl

theorem execForward_null (lib : Library) (b : Forward) (w : World)
    (h : evalArgs b.args = none) : execForward lib b w = (Outcome.undefined, w) := by
  simp only [execForward, h]

theorem execForward_post_null (lib : Library) (b : Forward) (w : World) {args : List LibArg}
    {h1 : Heap} {res : LibResult} (h : evalArgs b.args = some args)
    (hc : lib.call b.fn args w.heap = (h1, Except.ok res))
    (hp : b.post lib res h1 = Except.error PostFault.null) :
    execForward lib b w = (Outcome.undefined, ⟨h1, w.trace ++ [⟨b.fn, args⟩]⟩) := by
  simp only [execForward, h, hc, hp]

theorem run_forward_ok (lib : Library) (c : CalibCall) (w : World) (f : Forward)
    (args : List LibArg) (h1 h2 : Heap) (res : LibResult) (hb : body c = Body.forward f)
    (hargs : evalArgs f.args = some args)
    (hc : lib.call f.fn args w.heap = (h1, Except.ok res))
    (hp : f.post lib res h1 = Except.ok h2) :
    run true lib c w =
      (Outcome.returned (if f.returns then some res.value else none),
        ⟨h2, w.trace ++ [⟨f.fn, args⟩]⟩) := by
  simp only [run, if_true, hb, exec, execForward, hargs, hc, hp]

/-! ## C1: the disabled configuration -/

/-- C1: with `HAVE_OPENCV_CALIB` disabled, every exported function of
`calib_c.cpp`, on any arguments (null handles included), any library and any
state, ends by the error of `throw_no_calib` and leaves the state as it was:
no library call is recorded, no memory is written, and the outcome does not
depend on the function, the arguments, the memory or the library. -/
theorem disabled_call_raises_unsupported (lib : Library) (c : CalibCall) (w : World) :
    run false lib c w = (throw_no_calib, w) ∧
    (run false lib c w).1 = Outcome.raised (Thrown.cvError calibUnsupported) ∧
    (run false lib c w).2.trace = w.trace ∧
    (run false lib c w).1 ≠ Outcome.undefined ∧
    ∀ (lib1 : Library) (c1 : CalibCall) (w1 : World),
      (run false lib1 c1 w1).1 = (run false lib c w).1 := by
  refine ⟨rfl, rfl, rfl, ?_, fun _ _ _ => rfl⟩
  simp [run, throw_no_calib]

/-! ## C2: optional array parameters -/

/-- C3 at the failing inputs: with a null `distCoeffs` and all other handles
valid, `cveSolvePnP`, `cveSolveP3P` and `cveSolvePnPGeneric` dereference the
null pointer: the behaviour is undefined and `cv::solvePnP`, `cv::solveP3P`,
`cv::solvePnPGeneric` are not called; `cveSolvePnPRansac`,
`cveSolvePnPRefineLM` and `cveSolvePnPRefineVVS` pass `cv::noArray()`. -/
theorem solvePnP_null_distCoeffs (lib : Library) (w : World) :
    run true lib (CalibCall.cveSolvePnP (some 1) (some 2) (some 3) none (some 5) (some 6)
      false 0) w = (Outcome.undefined, w) ∧
    run true lib (CalibCall.cveSolveP3P (some 1) (some 2) (some 3) none (some 5) (some 6) 0) w
      = (Outcome.undefined, w) ∧
    run true lib (CalibCall.cveSolvePnPGeneric (some 1) (some 2) (some 3) none (some 5)
      (some 6) false 0 none none none) w = (Outcome.undefined, w) ∧
    (run true lib (CalibCall.cveSolvePnPRansac (some 1) (some 2) (some 3) none (some 5)
      (some 6) false 100 8 99 none 0) w).2.trace =
      w.trace ++ [⟨"cv::solvePnPRansac", [LibArg.ref 1, LibArg.ref 2, LibArg.ref 3,
        LibArg.noArray, LibArg.ref 5, LibArg.ref 6, LibArg.val (Scalar.bool false),
        LibArg.val (Scalar.int 100), LibArg.val (Scalar.real 8), LibArg.val (Scalar.real 99),
        LibArg.noArray, LibArg.val (Scalar.int 0)]⟩] ∧
    (run true lib (CalibCall.cveSolvePnPRefineLM (some 1) (some 2) (some 3) none (some 5)
      (some 6) (some 7)) w).2.trace =
      w.trace ++ [⟨"cv::solvePnPRefineLM", [LibArg.ref 1, LibArg.ref 2, LibArg.ref 3,
        LibArg.noArray, LibArg.ref 5, LibArg.ref 6, LibArg.ref 7]⟩] ∧
    (run true lib (CalibCall.cveSolvePnPRefineVVS (some 1) (some 2) (some 3) none (some 5)
      (some 6) (some 7) 1) w).2.trace =
      w.trace ++ [⟨"cv::solvePnPRefineVVS", [LibArg.ref 1, LibArg.ref 2, LibArg.ref 3,
        LibArg.noArray, LibArg.ref 5, LibArg.ref 6, LibArg.ref 7,
        LibArg.val (Scalar.real 1)]⟩] := by
  refine ⟨rfl, rfl, rfl, ?_, ?_, ?_⟩ <;>
    · simp only [run, if_true, body, exec]
      exact execForward_trace lib _ w rfl

/-! ## C4: value-returning forwarders -/

theorem execForward_returned (lib : Library) (b : Forward) (w : World) (v : Option Scalar)
    (hr : (execForward lib b w).1 = Outcome.returned v) :
    ∃ args h1 res h2, evalArgs b.args = some args ∧
      lib.call b.fn args w.heap = (h1, Except.ok res) ∧ b.post lib res h1 = Except.ok h2 ∧
      (execForward lib b w).2.heap = h2 := by
  cases hargs : evalArgs b.args with
  | none => simp [execForward, hargs] at hr
  | some args =>
    rcases hc : lib.call b.fn args w.heap with ⟨h1, r⟩
    cases r with
    | error e => simp [execForward, hargs, hc] at hr
    | ok res =>
      cases hp : b.post lib res h1 with
      | error x =>
        cases x with
        | null => simp [execForward, hargs, hc, hp] at hr
        | raised e h2 => simp [execForward, hargs, hc, hp] at hr
      | ok h2 =>
        exact ⟨args, h1, res, h2, rfl, hc, hp, by simp [execForward, hargs, hc, hp]⟩

theorem copyTo_some {lib : Library} {tmp : Mat} {dst : Handle} {h h2 : Heap}
    (hp : copyTo lib tmp dst h = Except.ok h2) : ∃ a, dst = some a ∧ h2.mats a = tmp := by
  cases dst with
  | none => simp [copyTo] at hp
  | some a =>
    cases hc : lib.copyToRaises tmp a h with
    | some x => simp [copyTo, hc] at hp
    | none =>
      simp only [copyTo, hc, Except.ok.injEq] at hp
      subst hp
      exact ⟨a, rfl, by simp [Heap.setMat, Mat.copyTo]⟩

theorem swapInto_some {res : Mat} {out : Handle} {h h2 : Heap}
    (hp : swapInto res out h = Except.ok h2) : ∃ a, out = some a ∧ h2.mats a = res := by
  cases out with
  | none => simp [swapInto] at hp
  | some a =>
    simp only [swapInto, Except.ok.injEq] at hp
    subst hp
    exact ⟨a, rfl, by simp [Heap.setMat, swap]⟩

theorem swapFrom_some {res : Mat} {out : Handle} {h h2 : Heap}
    (hp : swapFrom out res h = Except.ok h2) : ∃ a, out = some a ∧ h2.mats a = res := by
  cases out with
  | none => simp [swapFrom] at hp
  | some a =>
    simp only [swapFrom, Except.ok.injEq] at hp
    subst hp
    exact ⟨a, rfl, by simp [Heap.setMat, swap]⟩

theorem matrixOutput_post (lib : Library) (c : CalibCall) (out : Handle) (f : Forward)
    (res : LibResult) (h1 h2 : Heap) (ho : matrixOutput c = some out)
    (hb : body c = Body.forward f) (hp : f.post lib res h1 = Except.ok h2) :
    ∃ a, out = some a ∧ h2.mats a = res.mat := by
  cases c with
  | cveGetOptimalNewCameraMatrix cameraMatrix distCoeffs imageSize alpha newImgSize validPixROI
      centerPrincipalPoint newCameraMatrix =>
    simp only [matrixOutput, Option.some.injEq] at ho
    subst ho
    simp only [body, Body.forward.injEq] at hb
    subst hb
    cases validPixROI with
    | none => exact swapInto_some (h := h1) (by simpa [bind, Except.bind] using hp)
    | some r =>
      simp only [store, Option.isSome_some, if_true, bind, Except.bind] at hp
      exact swapInto_some hp
  | _ =>
    simp only [matrixOutput, Option.some.injEq, reduceCtorEq] at ho <;> subst ho <;>
    simp only [body, Body.forward.injEq] at hb <;> subst hb <;>
    first
      | exact copyTo_some hp
      -- `swapFrom` unfolds to the same update of the heap as `swapInto`
      | exact swapInto_some hp

/-- C5: after a call of a copy-style or swap-style wrapper that returns
normally, the caller-owned matrix output is a valid handle and holds exactly
the matrix the library call returned, whatever it held before. -/
theorem output_holds_library_matrix (lib : Library) (c : CalibCall) (w : World)
    (out : Handle) (v : Option Scalar) (ho : matrixOutput c = some out)
    (hr : (run true lib c w).1 = Outcome.returned v) :
    ∃ a f args h1 res, out = some a ∧ body c = Body.forward f ∧
      evalArgs f.args = some args ∧ lib.call f.fn args w.heap = (h1, Except.ok res) ∧
      (run true lib c w).2.heap.mats a = res.mat := by
  cases hb : body c with
  | tracker model observed matches_ mask randsacThreshold homography =>
    cases c <;> simp [matrixOutput] at ho <;> simp [body] at hb
  | forward f =>
    simp only [run, if_true, hb, exec] at hr ⊢
    obtain ⟨args, h1, res, h2, hargs, hc, hp, hh⟩ := execForward_returned lib f w v hr
    obtain ⟨a, ha, hm⟩ := matrixOutput_post lib c out f res h1 h2 ho hb hp
    exact ⟨a, f, args, h1, res, ha, rfl, hargs, hc, by rw [hh]; exact hm⟩

/-- C5, at a copy-style and a swap-style call on the same inputs: the output
at address 3 holds the matrix of `libOk` after either. -/
theorem output_holds_library_matrix_witness :
    (run true libOk (CalibCall.cveFindHomography (some 1) (some 2) (some 3) 8 3 none)
      world0).2.heap.mats 3 = ⟨[1, 2, 3]⟩ ∧
    (run true libOk (CalibCall.cveInitCameraMatrix2D (some 1) (some 2) (some 4) 1 (some 3))
      world0).2.heap.mats 3 = ⟨[1, 2, 3]⟩ ∧
    ∃ a f args h1 res, some 3 = some a ∧
      body (CalibCall.cveGetDefaultNewCameraMatrix (some 1) (some 2) true (some 3)) =
        Body.forward f ∧
      evalArgs f.args = some args ∧ libOk.call f.fn args world0.heap = (h1, Except.ok res) ∧
      (run true libOk (CalibCall.cveGetDefaultNewCameraMatrix (some 1) (some 2) true (some 3))
        world0).2.heap.mats a = res.mat :=
  ⟨rfl, rfl,
   output_holds_library_matrix libOk
    (CalibCall.cveGetDefaultNewCameraMatrix (some 1) (some 2) true (some 3)) world0 (some 3)
    none rfl rfl⟩

/-! ## C6: failures are those of the library -/

/-- C7: `throw_no_depthai` never returns normally; at every result type it
raises the same `cv::Exception`, with code `cv::Error::StsBadFunc` and the
message "The library is compiled without depthai support"; the message names
depthai, so it differs from every message that does not, and it differs from
the message of the calibration module's error. -/
theorem throw_no_depthai_raises :
    (∀ α : Type, (throw_no_depthai : Outcome α) =
      Outcome.raised (Thrown.cvError
        ⟨ErrorCode.StsBadFunc, "The library is compiled without depthai support"⟩)) ∧
    (∀ (α : Type) (v : α), (throw_no_depthai : Outcome α) ≠ Outcome.returned v) ∧
    (∀ α : Type, (throw_no_depthai : Outcome α) ≠ Outcome.undefined) ∧
    "depthai".toList <:+: depthaiUnsupported.err.toList ∧
    (∀ e : CvException, ¬ "depthai".toList <:+: e.err.toList →
      depthaiUnsupported.err ≠ e.err) ∧
    depthaiUnsupported.err ≠ calibUnsupported.err ∧
    (∀ α : Type, (throw_no_depthai : Outcome α) ≠ throw_no_calib) := by
  have hin : "depthai".toList <:+: depthaiUnsupported.err.toList :=
    ⟨"The library is compiled without ".toList, " support".toList, by decide⟩
  refine ⟨fun _ => rfl, ?_, ?_, hin, ?_, by decide, ?_⟩
  · intro α v h
    simp [throw_no_depthai] at h
  · intro α h
    simp [throw_no_depthai] at h
  · intro e hne heq
    exact hne (heq ▸ hin)
  · intro α h
    simp only [throw_no_depthai, throw_no_calib, Outcome.raised.injEq, Thrown.cvError.injEq] at h
    exact absurd h (by decide)

/-- C7, at the exception of `libFail`, whose message does not name depthai. -/
theorem throw_no_depthai_raises_witness :
    depthaiUnsupported.err ≠ "Assertion failed" :=
  throw_no_depthai_raises.2.2.2.2.1 ⟨ErrorCode.other (-215), "Assertion failed"⟩ (by decide)

/-! ## C8: the exported DepthAI surface without the SDK -/

/-- C8 at the configuration without the SDK: the exported declarations are
the same in both configurations and all their `dai` types are declared with
the SDK, but the stub namespace declares neither `dai::Device` nor
`dai::node::MonoCamera`, `dai::node::NeuralNetwork`, `dai::node::StereoDepth`,
so 23 of the 41 declarations, `daiDeviceCreate` among them, name an
undeclared type. -/
theorem stub_namespace_misses_types :
    exportedDecls true = exportedDecls false ∧
    (exportedDecls false).length = 41 ∧
    missingTypes true = [] ∧
    missingTypes false =
      [DaiType.MonoCamera, DaiType.Device, DaiType.NeuralNetwork, DaiType.StereoDepth] ∧
    declarable false ⟨"daiDeviceCreate", ptrTo DaiType.Device, [ptrTo DaiType.Pipeline]⟩ = false ∧
    ((exportedDecls false).filter fun d => !declarable false d).length = 23 := by
  refine ⟨rfl, rfl, ?_, ?_, ?_, ?_⟩ <;> decide

/-! ## C9: scalar properties of the DepthAI nodes -/

/-- C9: with the SDK present, for each of the four scalar properties, for
every node and every `int` value `v` (so for every value of the
enumeration), the setter followed by the getter returns `v`, and the setter
leaves every other property of the node as it was. -/
theorem setter_getter_round_trip (cam : MonoCamera) (col : ColorCamera) (v : Int) :
    (daiMonoCameraSetBoardSocket true cam v = Outcome.returned { cam with boardSocket := v } ∧
      setThenGet (daiMonoCameraSetBoardSocket true cam v) (daiMonoCameraGetBoardSocket true)
        = Outcome.returned v) ∧
    (daiMonoCameraSetResolution true cam v = Outcome.returned { cam with resolution := v } ∧
      setThenGet (daiMonoCameraSetResolution true cam v) (daiMonoCameraGetResolution true)
        = Outcome.returned v) ∧
    (daiMonoCameraSetImageOrientation true cam v =
        Outcome.returned { cam with imageOrientation := v } ∧
      setThenGet (daiMonoCameraSetImageOrientation true cam v)
        (daiMonoCameraGetImageOrientation true) = Outcome.returned v) ∧
    (daiColorCameraSetImageOrientation true col v =
        Outcome.returned { col with imageOrientation := v } ∧
      setThenGet (daiColorCameraSetImageOrientation true col v)
        (daiColorCameraGetImageOrientation true) = Outcome.returned v) :=
  ⟨⟨rfl, rfl⟩, ⟨rfl, rfl⟩, ⟨rfl, rfl⟩, ⟨rfl, rfl⟩⟩

/-! ## C10: a failed tracker call has no partial effect -/

theorem trackerFrom_false (lib : Library) (model observed : Option (List KeyPoint))
    (matches_ : Option (List (List DMatch))) (mask : Option (List Nat)) (thr : Dbl)
    (homography : Option Mat) (maskMat : List Nat) (nonZero : Nat)
    (h : (trackerFrom lib model observed matches_ mask thr homography maskMat nonZero).outcome
      = Outcome.returned false) :
    (trackerFrom lib model observed matches_ mask thr homography maskMat nonZero).mask = mask ∧
    (trackerFrom lib model observed matches_ mask thr homography maskMat nonZero).homography
      = homography := by
  unfold trackerFrom at h ⊢
  split
  · exact ⟨rfl, rfl⟩
  · rename_i hn
    simp only [hn, if_false] at h
    split
    · exact ⟨rfl, rfl⟩
    · rename_i srcPtVec dstPtVec hg
      simp only [hg] at h
      split
      · exact ⟨rfl, rfl⟩
      · rename_i result ransacMask hl
        simp only [hl] at h
        split
        · exact ⟨rfl, rfl⟩
        · rename_i he
          simp only [he] at h
          cases homography with
          | none => exact ⟨rfl, rfl⟩
          | some old =>
            simp only at h
            cases hr : refineMask ransacMask 0 maskMat with
            | none => simp [hr] at h
            | some m1 => simp [hr] at h

theorem tracker_false (lib : Library) (model observed : Option (List KeyPoint))
    (matches_ : Option (List (List DMatch))) (mask : Option (List Nat)) (thr : Dbl)
    (homography : Option Mat)
    (h : (getHomographyMatrixFromMatchedFeatures lib model observed matches_ mask thr
      homography).outcome = Outcome.returned false) :
    (getHomographyMatrixFromMatchedFeatures lib model observed matches_ mask thr
      homography).mask = mask ∧
    (getHomographyMatrixFromMatchedFeatures lib model observed matches_ mask thr
      homography).homography = homography := by
  cases mask with
  | some m =>
    simp only [getHomographyMatrixFromMatchedFeatures] at h ⊢
    exact trackerFrom_false lib model observed matches_ (some m) thr homography m _ h
  | none =>
    cases matches_ with
    | none => simp [getHomographyMatrixFromMatchedFeatures] at h
    | some ms =>
      simp only [getHomographyMatrixFromMatchedFeatures] at h ⊢
      exact trackerFrom_false lib model observed (some ms) none thr homography _ _ h

theorem Heap.setMat_self (h : Heap) (a : Nat) : h.setMat a (h.mats a) = h := by
  cases h
  simp [Heap.setMat]

theorem Heap.setMat_elems (h : Heap) (a : Nat) : h.setMat a ⟨(h.mats a).elems⟩ = h :=
  Heap.setMat_self h a

/-- C10: whenever the enabled `getHomographyMatrixFromMatchedFeatures`
returns `false`, the caller's mask and `*homography` are what they were
before the call, and so is all caller memory. -/
theorem failed_tracker_call_leaves_outputs (lib : Library)
    (model observed : Option (List KeyPoint)) (matches_ : Option (List (List DMatch)))
    (mask : Handle) (randsacThreshold : Dbl) (homography : Handle) (w : World)
    (h : (run true lib (CalibCall.getHomographyMatrixFromMatchedFeatures model observed
      matches_ mask randsacThreshold homography) w).1 =
        Outcome.returned (some (Scalar.bool false))) :
    (run true lib (CalibCall.getHomographyMatrixFromMatchedFeatures model observed matches_
      mask randsacThreshold homography) w).2.heap = w.heap ∧
    (∀ a, mask = some a →
      (run true lib (CalibCall.getHomographyMatrixFromMatchedFeatures model observed matches_
        mask randsacThreshold homography) w).2.heap.mats a = w.heap.mats a) ∧
    (∀ a, homography = some a →
      (run true lib (CalibCall.getHomographyMatrixFromMatchedFeatures model observed matches_
        mask randsacThreshold homography) w).2.heap.mats a = w.heap.mats a) := by
  have hcore : (getHomographyMatrixFromMatchedFeatures lib model observed matches_
      (mask.map fun a => (w.heap.mats a).elems) randsacThreshold
      (homography.map w.heap.mats)).outcome = Outcome.returned false := by
    simp only [run, if_true, body, exec, execTracker] at h
    revert h
    cases (getHomographyMatrixFromMatchedFeatures lib model observed matches_
      (mask.map fun a => (w.heap.mats a).elems) randsacThreshold
      (homography.map w.heap.mats)).outcome with
    | returned b => intro h; simpa using h
    | raised e => intro h; simp at h
    | undefined => intro h; simp at h
  obtain ⟨hm, hh⟩ := tracker_false lib model observed matches_ _ randsacThreshold _ hcore
  have heap_eq : (run true lib (CalibCall.getHomographyMatrixFromMatchedFeatures model
      observed matches_ mask randsacThreshold homography) w).2.heap = w.heap := by
    simp only [run, if_true, body, exec, execTracker, hm, hh]
    cases mask <;> cases homography <;> simp [Heap.setMat_self, Heap.setMat_elems]
  exact ⟨heap_eq, fun a _ => by rw [heap_eq], fun a _ => by rw [heap_eq]⟩

/-- C10, at a mask with two selected rows: the call returns `false` and the
mask at address 1 and the homography at address 2 are as before. -/
theorem failed_tracker_call_leaves_outputs_witness :
    (run true libOk (CalibCall.getHomographyMatrixFromMatchedFeatures (some []) (some [])
      (some []) (some 1) 3 (some 2)) ⟨heap0.setMat 1 ⟨[255, 0, 255]⟩, []⟩).1 =
        Outcome.returned (some (Scalar.bool false)) ∧
    (run true libOk (CalibCall.getHomographyMatrixFromMatchedFeatures (some []) (some [])
      (some []) (some 1) 3 (some 2)) ⟨heap0.setMat 1 ⟨[255, 0, 255]⟩, []⟩).2.heap.mats 1 =
        ⟨[255, 0, 255]⟩ :=
  ⟨rfl, ((failed_tracker_call_leaves_outputs libOk (some []) (some []) (some []) (some 1) 3
    (some 2) ⟨heap0.setMat 1 ⟨[255, 0, 255]⟩, []⟩ rfl).2.1 1 rfl).trans rfl⟩

/-! ## C11: the valid-pixel rectangle of `cveGetOptimalNewCameraMatrix` -/

/-- C11: when `cveGetOptimalNewCameraMatrix` is called with valid required
handles and the library call succeeds, the wrapper returns normally and
`*newCameraMatrix` holds the library's matrix; when `validPixROI` is
non-null its four fields hold the fields of the library's rectangle `r` and no
other cell changes; when it is null no scalar cell is written at all. -/
theorem optimal_matrix_and_roi (lib : Library) (w : World) (cameraMatrix imageSize newImgSize
    newCameraMatrix : Nat) (distCoeffs validPixROI : Handle) (alpha : Dbl)
    (centerPrincipalPoint : Bool) (h1 : Heap) (res : LibResult)
    (hc : lib.call "cv::getOptimalNewCameraMatrix"
      [LibArg.ref cameraMatrix, optionalArray distCoeffs, LibArg.ref imageSize,
        LibArg.val (Scalar.real alpha), LibArg.ref newImgSize, LibArg.loc "r",
        LibArg.val (Scalar.bool centerPrincipalPoint)] w.heap = (h1, Except.ok res)) :
    (run true lib (CalibCall.cveGetOptimalNewCameraMatrix (some cameraMatrix) distCoeffs
      (some imageSize) alpha (some newImgSize) validPixROI centerPrincipalPoint
      (some newCameraMatrix)) w).1 = Outcome.returned none ∧
    (run true lib (CalibCall.cveGetOptimalNewCameraMatrix (some cameraMatrix) distCoeffs
      (some imageSize) alpha (some newImgSize) validPixROI centerPrincipalPoint
      (some newCameraMatrix)) w).2.heap.mats newCameraMatrix = res.mat ∧
    (∀ p, validPixROI = some p →
      (run true lib (CalibCall.cveGetOptimalNewCameraMatrix (some cameraMatrix) distCoeffs
        (some imageSize) alpha (some newImgSize) validPixROI centerPrincipalPoint
        (some newCameraMatrix)) w).2.heap.cells p Field.x = res.out "r" Field.x ∧
      (run true lib (CalibCall.cveGetOptimalNewCameraMatrix (some cameraMatrix) distCoeffs
        (some imageSize) alpha (some newImgSize) validPixROI centerPrincipalPoint
        (some newCameraMatrix)) w).2.heap.cells p Field.y = res.out "r" Field.y ∧
      (run true lib (CalibCall.cveGetOptimalNewCameraMatrix (some cameraMatrix) distCoeffs
        (some imageSize) alpha (some newImgSize) validPixROI centerPrincipalPoint
        (some newCameraMatrix)) w).2.heap.cells p Field.width = res.out "r" Field.width ∧
      (run true lib (CalibCall.cveGetOptimalNewCameraMatrix (some cameraMatrix) distCoeffs
        (some imageSize) alpha (some newImgSize) validPixROI centerPrincipalPoint
        (some newCameraMatrix)) w).2.heap.cells p Field.height = res.out "r" Field.height ∧
      ∀ q, q ≠ p →
        (run true lib (CalibCall.cveGetOptimalNewCameraMatrix (some cameraMatrix) distCoeffs
          (some imageSize) alpha (some newImgSize) validPixROI centerPrincipalPoint
          (some newCameraMatrix)) w).2.heap.cells q = h1.cells q) ∧
    (validPixROI = none →
      (run true lib (CalibCall.cveGetOptimalNewCameraMatrix (some cameraMatrix) distCoeffs
        (some imageSize) alpha (some newImgSize) validPixROI centerPrincipalPoint
        (some newCameraMatrix)) w).2.heap.cells = h1.cells) := by
  have hargs : evalArgs [deref (some cameraMatrix), orNoArray distCoeffs, deref (some imageSize),
      real alpha, deref (some newImgSize), loc "r", bool centerPrincipalPoint] =
      some [LibArg.ref cameraMatrix, optionalArray distCoeffs, LibArg.ref imageSize,
        LibArg.val (Scalar.real alpha), LibArg.ref newImgSize, LibArg.loc "r",
        LibArg.val (Scalar.bool centerPrincipalPoint)] := by
    cases distCoeffs <;> rfl
  cases validPixROI with
  | none =>
    rw [run_forward_ok lib (CalibCall.cveGetOptimalNewCameraMatrix (some cameraMatrix)
      distCoeffs (some imageSize) alpha (some newImgSize) none centerPrincipalPoint
      (some newCameraMatrix)) w _ _ h1 _ res rfl hargs hc rfl]
    simp [Heap.setMat, swap]
  | some p =>
    rw [run_forward_ok lib (CalibCall.cveGetOptimalNewCameraMatrix (some cameraMatrix)
      distCoeffs (some imageSize) alpha (some newImgSize) (some p) centerPrincipalPoint
      (some newCameraMatrix)) w _ _ h1 _ res rfl hargs hc rfl]
    simp [Heap.setMat, Heap.setCell, swap]
    intro q hq
    simp [Function.update_noteq hq]

/-- C11, with a rectangle pointer at address 9 and with a null one. -/
theorem optimal_matrix_and_roi_witness :
    (run true libDistinct (CalibCall.cveGetOptimalNewCameraMatrix (some 1) none (some 2) 0
      (some 3) (some 9) false (some 4)) world0).2.heap.cells 9 Field.width =
        Scalar.real 14 ∧
    (run true libDistinct (CalibCall.cveGetOptimalNewCameraMatrix (some 1) none (some 2) 0
      (some 3) none false (some 4)) world0).1 = Outcome.returned none :=
  ⟨((optimal_matrix_and_roi libDistinct world0 1 2 3 4 none (some 9) 0 false heap0
      resultDistinct rfl).2.2.1 9 rfl).2.2.1.trans (by decide),
   (optimal_matrix_and_roi libDistinct world0 1 2 3 4 none none 0 false heap0
      resultDistinct rfl).1⟩

/-! ## C12: structured results marshalled into scalar outputs -/

/-- C12: on valid handles and a successful library call,
`cveCalibrationMatrixValues` leaves in `*fovx`, `*fovy`, `*focalLength`,
`*aspectRatio`, `principalPoint->x`, `principalPoint->y` the library's
`_fovx`, `_fovy`, `_focalLength`, `_aspectRatio`, `_principalPoint.x`,
`_principalPoint.y` (the output pointers being distinct);
`cveEstimateChessboardSharpness` leaves in `result->val[k]` component `k` of
the returned scalar, for `k = 0..3`; `cveRQDecomp3x3` leaves in `out->x`,
`out->y`, `out->z` components 0, 1, 2 of the returned vector. -/
theorem marshalled_component_wise (lib : Library) (w : World) (h1 : Heap) (res : LibResult) :
    (∀ (cameraMatrix imageSize fovx fovy focalLength principalPoint aspectRatio : Nat)
      (apertureWidth apertureHeight : Dbl),
      [fovx, fovy, focalLength, aspectRatio, principalPoint].Nodup →
      lib.call "cv::calibrationMatrixValues"
        [LibArg.ref cameraMatrix, LibArg.ref imageSize, LibArg.val (Scalar.real apertureWidth),
          LibArg.val (Scalar.real apertureHeight), LibArg.loc "_fovx", LibArg.loc "_fovy",
          LibArg.loc "_focalLength", LibArg.loc "_principalPoint", LibArg.loc "_aspectRatio"]
        w.heap = (h1, Except.ok res) →
      ∃ h2, run true lib (CalibCall.cveCalibrationMatrixValues (some cameraMatrix)
          (some imageSize) apertureWidth apertureHeight (some fovx) (some fovy)
          (some focalLength) (some principalPoint) (some aspectRatio)) w =
          (Outcome.returned none, ⟨h2, w.trace ++ [⟨"cv::calibrationMatrixValues",
            [LibArg.ref cameraMatrix, LibArg.ref imageSize,
              LibArg.val (Scalar.real apertureWidth), LibArg.val (Scalar.real apertureHeight),
              LibArg.loc "_fovx", LibArg.loc "_fovy", LibArg.loc "_focalLength",
              LibArg.loc "_principalPoint", LibArg.loc "_aspectRatio"]⟩]⟩) ∧
        h2.mats = h1.mats ∧
        h2.cells fovx Field.self = res.out "_fovx" Field.self ∧
        h2.cells fovy Field.self = res.out "_fovy" Field.self ∧
        h2.cells focalLength Field.self = res.out "_focalLength" Field.self ∧
        h2.cells aspectRatio Field.self = res.out "_aspectRatio" Field.self ∧
        h2.cells principalPoint Field.x = res.out "_principalPoint" Field.x ∧
        h2.cells principalPoint Field.y = res.out "_principalPoint" Field.y) ∧
    (∀ (image patternSize corners result : Nat) (riseDistance : Dbl) (vertical : Bool)
      (sharpness : Handle),
      lib.call "cv::estimateChessboardSharpness"
        [LibArg.ref image, LibArg.ref patternSize, LibArg.ref corners,
          LibArg.val (Scalar.real riseDistance), LibArg.val (Scalar.bool vertical),
          optionalArray sharpness] w.heap = (h1, Except.ok res) →
      ∃ h2, run true lib (CalibCall.cveEstimateChessboardSharpness (some image)
          (some patternSize) (some corners) riseDistance vertical sharpness (some result)) w =
          (Outcome.returned none, ⟨h2, w.trace ++ [⟨"cv::estimateChessboardSharpness",
            [LibArg.ref image, LibArg.ref patternSize, LibArg.ref corners,
              LibArg.val (Scalar.real riseDistance), LibArg.val (Scalar.bool vertical),
              optionalArray sharpness]⟩]⟩) ∧
        h2.mats = h1.mats ∧
        (∀ k, k < 4 → h2.cells result (Field.val k) = res.comp k)) ∧
    (∀ (src out mtxR mtxQ : Nat) (Qx Qy Qz : Handle),
      lib.call "cv::RQDecomp3x3"
        [LibArg.ref src, LibArg.ref mtxR, LibArg.ref mtxQ, optionalArray Qx, optionalArray Qy,
          optionalArray Qz] w.heap = (h1, Except.ok res) →
      ∃ h2, run true lib (CalibCall.cveRQDecomp3x3 (some src) (some out) (some mtxR)
          (some mtxQ) Qx Qy Qz) w =
          (Outcome.returned none, ⟨h2, w.trace ++ [⟨"cv::RQDecomp3x3",
            [LibArg.ref src, LibArg.ref mtxR, LibArg.ref mtxQ, optionalArray Qx,
              optionalArray Qy, optionalArray Qz]⟩]⟩) ∧
        h2.mats = h1.mats ∧
        h2.cells out Field.x = res.comp 0 ∧
        h2.cells out Field.y = res.comp 1 ∧
        h2.cells out Field.z = res.comp 2) := by
  refine ⟨?_, ?_, ?_⟩
  · intro cameraMatrix imageSize fovx fovy focalLength principalPoint aspectRatio
      apertureWidth apertureHeight hnd hc
    simp only [List.nodup_cons, List.mem_cons, List.mem_singleton, List.not_mem_nil,
      not_or, or_false, List.nodup_nil, and_true, not_false_eq_true] at hnd
    obtain ⟨⟨h12, h13, h14, h15⟩, ⟨h23, h24, h25⟩, ⟨h34, h35⟩, h45⟩ := hnd
    refine ⟨_, run_forward_ok lib (CalibCall.cveCalibrationMatrixValues (some cameraMatrix)
      (some imageSize) apertureWidth apertureHeight (some fovx) (some fovy)
      (some focalLength) (some principalPoint) (some aspectRatio)) w _ _ h1 _ res rfl rfl hc
      rfl, rfl, ?_⟩
    simp [Heap.setCell, Function.update_apply, h12, h13, h14, h15, h23, h24, h25, h34, h35, h45]
  · intro image patternSize corners result riseDistance vertical sharpness hc
    have hargs : evalArgs [deref (some image), deref (some patternSize), deref (some corners),
        real riseDistance, bool vertical, orNoArray sharpness] =
        some [LibArg.ref image, LibArg.ref patternSize, LibArg.ref corners,
          LibArg.val (Scalar.real riseDistance), LibArg.val (Scalar.bool vertical),
          optionalArray sharpness] := by
      cases sharpness <;> rfl
    refine ⟨_, run_forward_ok lib (CalibCall.cveEstimateChessboardSharpness (some image)
      (some patternSize) (some corners) riseDistance vertical sharpness (some result)) w _ _ h1
      _ res rfl hargs hc rfl, rfl, ?_⟩
    intro k hk
    interval_cases k <;> simp [Heap.setCell, Function.update_apply]
  · intro src out mtxR mtxQ Qx Qy Qz hc
    have hargs : evalArgs [deref (some src), deref (some mtxR), deref (some mtxQ),
        orNoArray Qx, orNoArray Qy, orNoArray Qz] =
        some [LibArg.ref src, LibArg.ref mtxR, LibArg.ref mtxQ, optionalArray Qx,
          optionalArray Qy, optionalArray Qz] := by
      cases Qx <;> cases Qy <;> cases Qz <;> rfl
    refine ⟨_, run_forward_ok lib (CalibCall.cveRQDecomp3x3 (some src) (some out) (some mtxR)
      (some mtxQ) Qx Qy Qz) w _ _ h1 _ res rfl hargs hc rfl, rfl, ?_⟩
    simp [Heap.setCell, Function.update_apply]

/-- C12, over `libDistinct`, whose result has a different value in every
component: each output holds the value of its own component. -/
theorem marshalled_component_wise_witness :
    [5, 6, 7, 9, 8].Nodup ∧
    (run true libDistinct (CalibCall.cveCalibrationMatrixValues (some 1) (some 2) 0 0
      (some 5) (some 6) (some 7) (some 8) (some 9)) world0).2.heap.cells 8 Field.y =
        Scalar.real 152 ∧
    (run true libDistinct (CalibCall.cveCalibrationMatrixValues (some 1) (some 2) 0 0
      (some 5) (some 6) (some 7) (some 8) (some 9)) world0).2.heap.cells 6 Field.self =
        Scalar.real 50 ∧
    (run true libDistinct (CalibCall.cveEstimateChessboardSharpness (some 1) (some 2) (some 3)
      0 false none (some 4)) world0).2.heap.cells 4 (Field.val 2) = Scalar.real 12 ∧
    (run true libDistinct (CalibCall.cveRQDecomp3x3 (some 1) (some 4) (some 2) (some 3) none
      none none) world0).2.heap.cells 4 Field.z = Scalar.real 12 := by
  have h := marshalled_component_wise libDistinct world0 heap0 resultDistinct
  obtain ⟨_, e1, _, _, h6, _, _, _, h8⟩ := h.1 1 2 5 6 7 8 9 0 0 (by decide) rfl
  obtain ⟨_, e2, _, hv⟩ := h.2.1 1 2 3 4 0 false none rfl
  obtain ⟨_, e3, _, _, _, hz⟩ := h.2.2 1 4 2 3 none none none rfl
  refine ⟨by decide, ?_, ?_, ?_, ?_⟩
  · rw [e1]; exact h8.trans (by decide)
  · rw [e1]; exact h6.trans (by decide)
  · rw [e2]; exact (hv 2 (by decide)).trans (by decide)
  · rw [e3]; exact hz.trans (by decide)

/-! ## Lemmas on the loops of the tracker function -/

theorem selectedRowsFrom_length (rows : List Nat) (i : Nat) :
    (selectedRowsFrom i rows).length = countNonZero rows := by
  induction rows generalizing i with
  | nil => rfl
  | cons v rest ih =>
    by_cases hv : v = 0
    · simp [selectedRowsFrom, countNonZero, hv, ih] at *
    · simp [selectedRowsFrom, countNonZero, hv, ih] at *

theorem mem_selectedRowsFrom (rows : List Nat) (i j : Nat)
    (h : j ∈ selectedRowsFrom i rows) :
    i ≤ j ∧ j < i + rows.length ∧ ∃ v, rows[j - i]? = some v ∧ v ≠ 0 := by
  induction rows generalizing i with
  | nil => simp [selectedRowsFrom] at h
  | cons v rest ih =>
    have step : j ∈ selectedRowsFrom (i + 1) rest →
        i ≤ j ∧ j < i + (v :: rest).length ∧ ∃ u, (v :: rest)[j - i]? = some u ∧ u ≠ 0 := by
      intro hj
      obtain ⟨h1, h2, u, hu, hne⟩ := ih (i + 1) hj
      refine ⟨by omega, by simp; omega, u, ?_, hne⟩
      have : j - i = (j - (i + 1)) + 1 := by omega
      rw [this]
      simpa using hu
    by_cases hv : v = 0
    · simp only [selectedRowsFrom, hv, ne_eq, not_true_eq_false, if_false] at h
      simpa [hv] using step h
    · simp only [selectedRowsFrom, ne_eq, hv, not_false_eq_true, if_true, List.mem_cons] at h
      rcases h with rfl | h
      · exact ⟨le_refl _, by simp, v, by simp, hv⟩
      · exact step h

theorem indexKeyPoint_some {v : Option (List KeyPoint)} {idx : Int} {k : KeyPoint}
    (h : indexKeyPoint v idx = some k) :
    ∃ ks, v = some ks ∧ 0 ≤ idx ∧ ks[idx.toNat]? = some k := by
  cases v with
  | none => simp [indexKeyPoint] at h
  | some ks =>
    by_cases h0 : 0 ≤ idx
    · simp [indexKeyPoint, h0] at h
      exact ⟨ks, rfl, h0, h⟩
    · simp [indexKeyPoint, h0] at h

theorem gatherPoints_ok_spec (model observed : Option (List KeyPoint))
    (matches_ : Option (List (List DMatch))) (rows : List Nat) :
    ∀ (i : Nat) (src0 dst0 src dst : List Point2f),
      gatherPoints model observed matches_ i rows src0 dst0 = Except.ok (src, dst) →
      ∃ ps : List (Point2f × Point2f),
        src = src0 ++ ps.map Prod.fst ∧ dst = dst0 ++ ps.map Prod.snd ∧
        (selectedRowsFrom i rows).map (pairOfRow model observed matches_) = ps.map some := by
  induction rows with
  | nil =>
    intro i src0 dst0 src dst h
    simp only [gatherPoints, Except.ok.injEq, Prod.mk.injEq] at h
    exact ⟨[], by simp [h.1], by simp [h.2], rfl⟩
  | cons v rest ih =>
    intro i src0 dst0 src dst h
    by_cases hv : v = 0
    · simp only [gatherPoints, hv, ne_eq, not_true_eq_false, if_false] at h
      obtain ⟨ps, h1, h2, h3⟩ := ih (i + 1) src0 dst0 src dst h
      exact ⟨ps, h1, h2, by simpa [selectedRowsFrom, hv] using h3⟩
    · simp only [gatherPoints, ne_eq, hv, not_false_eq_true, if_true] at h
      cases matches_ with
      | none => simp at h
      | some ms =>
        simp only at h
        cases hrow : ms[i]? with
        | none => simp [hrow] at h
        | some row =>
          simp only [hrow] at h
          cases row with
          | nil => simp at h
          | cons m tl =>
            simp only [List.getElem?_cons_zero] at h
            cases hmk : indexKeyPoint model m.trainIdx with
            | none => simp [hmk] at h
            | some mk =>
              simp only [hmk] at h
              cases hok : indexKeyPoint observed (i : Int) with
              | none => simp [hok] at h
              | some o =>
                simp only [hok] at h
                obtain ⟨ps, h1, h2, h3⟩ := ih (i + 1) _ _ src dst h
                obtain ⟨mo, rfl, hm0, hmo⟩ := indexKeyPoint_some hmk
                obtain ⟨ob, rfl, _, hob⟩ := indexKeyPoint_some hok
                refine ⟨(mk.pt, o.pt) :: ps, by simp [h1], by simp [h2], ?_⟩
                simp only [selectedRowsFrom, ne_eq, hv, not_false_eq_true, if_true,
                  List.map_cons, h3, List.cons.injEq, and_true]
                simp only [Int.toNat_ofNat] at hob
                simp [pairOfRow, hrow, hob, hm0, hmo]

theorem gatherPoints_pairs (model observed : Option (List KeyPoint))
    (matches_ : Option (List (List DMatch))) (maskMat : List Nat) (src dst : List Point2f)
    (h : gatherPoints model observed matches_ 0 maskMat [] [] = Except.ok (src, dst)) :
    src.length = countNonZero maskMat ∧ dst.length = countNonZero maskMat ∧
    ∀ k i : Nat, (selectedRows maskMat)[k]? = some i →
      ∃ s d, src[k]? = some s ∧ dst[k]? = some d ∧
        pairOfRow model observed matches_ i = some (s, d) := by
  obtain ⟨ps, h1, h2, h3⟩ := gatherPoints_ok_spec model observed matches_ maskMat 0 [] [] src
    dst h
  simp only [List.nil_append] at h1 h2
  have hlen : ps.length = countNonZero maskMat := by
    have := congrArg List.length h3
    simp only [List.length_map] at this
    rw [← this, selectedRowsFrom_length]
  refine ⟨by simp [h1, hlen], by simp [h2, hlen], ?_⟩
  intro k i hk
  have hk2 := congrArg (fun l => l[k]?) h3
  simp only [List.getElem?_map, selectedRows] at hk2 hk
  rw [hk] at hk2
  cases hp : ps[k]? with
  | none => simp [hp] at hk2
  | some p =>
    simp only [hp, Option.map_some', Option.some.injEq] at hk2
    exact ⟨p.1, p.2, by simp [h1, hp], by simp [h2, hp], hk2⟩

theorem countNonZero_cons_zero (rest : List Nat) : countNonZero (0 :: rest) = countNonZero rest := by
  simp [countNonZero]

theorem countNonZero_cons_ne {v : Nat} (hv : v ≠ 0) (rest : List Nat) :
    countNonZero (v :: rest) = countNonZero rest + 1 := by
  simp [countNonZero, hv]

theorem countNonZero_replicate (n : Nat) : countNonZero (List.replicate n 255) = n := by
  induction n with
  | zero => rfl
  | succ n ih => rw [List.replicate_succ, countNonZero_cons_ne (by decide), ih]

theorem refineMask_spec (ransacMask : List Nat) (rows : List Nat) :
    ∀ (idx : Nat) (rows1 : List Nat), refineMask ransacMask idx rows = some rows1 →
      rows1.length = rows.length ∧
      (∀ d : Nat, rows[d]? = some 0 → rows1[d]? = some 0) ∧
      (∀ i0 k j : Nat, (selectedRowsFrom i0 rows)[k]? = some j →
        rows1[j - i0]? = ransacMask[idx + k]? ∧ idx + k < ransacMask.length) := by
  induction rows with
  | nil =>
    intro idx rows1 h
    simp only [refineMask, Option.some.injEq] at h
    subst h
    exact ⟨rfl, fun d hd => by simp at hd, fun i0 k j hj => by simp [selectedRowsFrom] at hj⟩
  | cons v rest ih =>
    intro idx rows1 h
    by_cases hv : v = 0
    · subst hv
      simp only [refineMask, ne_eq, not_true_eq_false, if_false] at h
      cases hr : refineMask ransacMask idx rest with
      | none => simp [hr] at h
      | some rest1 =>
        simp only [hr, Option.some.injEq] at h
        subst h
        obtain ⟨hl, hz, hs⟩ := ih idx rest1 hr
        refine ⟨by simp [hl], ?_, ?_⟩
        · intro d hd
          cases d with
          | zero => simp
          | succ d => simpa using hz d (by simpa using hd)
        · intro i0 k j hj
          simp only [selectedRowsFrom, ne_eq, not_true_eq_false, if_false] at hj
          obtain ⟨hle, _, _⟩ := mem_selectedRowsFrom rest (i0 + 1) j (List.getElem?_mem hj)
          have hji : j - i0 = (j - (i0 + 1)) + 1 := by omega
          rw [hji]
          simpa using hs (i0 + 1) k j hj
    · simp only [refineMask, ne_eq, hv, not_false_eq_true, if_true] at h
      cases hg : ransacMask[idx]? with
      | none => simp [hg] at h
      | some r =>
        simp only [hg] at h
        cases hr : refineMask ransacMask (idx + 1) rest with
        | none => simp [hr] at h
        | some rest1 =>
          simp only [hr, Option.some.injEq] at h
          subst h
          obtain ⟨hl, hz, hs⟩ := ih (idx + 1) rest1 hr
          refine ⟨by simp [hl], ?_, ?_⟩
          · intro d hd
            cases d with
            | zero =>
              simp only [List.getElem?_cons_zero, Option.some.injEq] at hd
              exact absurd hd hv
            | succ d => simpa using hz d (by simpa using hd)
          · intro i0 k j hj
            simp only [selectedRowsFrom, ne_eq, hv, not_false_eq_true, if_true] at hj
            cases k with
            | zero =>
              simp only [List.getElem?_cons_zero, Option.some.injEq] at hj
              subst hj
              simp only [Nat.sub_self, List.getElem?_cons_zero, Nat.add_zero, hg, true_and]
              exact (List.getElem?_eq_some.mp hg).1
            | succ k =>
              simp only [List.getElem?_cons_succ] at hj
              obtain ⟨hle, _, _⟩ := mem_selectedRowsFrom rest (i0 + 1) j
                (List.getElem?_mem hj)
              have hji : j - i0 = (j - (i0 + 1)) + 1 := by omega
              have hik : idx + (k + 1) = idx + 1 + k := by omega
              rw [hji, hik]
              simpa using hs (i0 + 1) k j hj

theorem refineMask_some (ransacMask : List Nat) (rows : List Nat) :
    ∀ idx, idx + countNonZero rows ≤ ransacMask.length →
      ∃ rows1, refineMask ransacMask idx rows = some rows1 := by
  induction rows with
  | nil => intro idx _; exact ⟨[], rfl⟩
  | cons v rest ih =>
    intro idx h
    by_cases hv : v = 0
    · subst hv
      rw [countNonZero_cons_zero] at h
      obtain ⟨rest1, hr⟩ := ih idx h
      exact ⟨0 :: rest1, by simp [refineMask, hr]⟩
    · rw [countNonZero_cons_ne hv] at h
      obtain ⟨rest1, hr⟩ := ih (idx + 1) (by omega)
      have hlt : idx < ransacMask.length := by omega
      exact ⟨ransacMask[idx] :: rest1, by simp [refineMask, hv, hr, List.getElem?_eq_getElem hlt]⟩

theorem refineMask_take (ransacMask : List Nat) (rows : List Nat) :
    ∀ (idx : Nat) (rows1 : List Nat), refineMask ransacMask idx rows = some rows1 →
      refineMask (ransacMask.take (idx + countNonZero rows)) idx rows = some rows1 := by
  induction rows with
  | nil => intro idx rows1 h; simpa [refineMask] using h
  | cons v rest ih =>
    intro idx rows1 h
    by_cases hv : v = 0
    · subst hv
      simp only [refineMask, ne_eq, not_true_eq_false, if_false] at h ⊢
      cases hr : refineMask ransacMask idx rest with
      | none => simp [hr] at h
      | some rest1 =>
        simp only [hr] at h
        rw [countNonZero_cons_zero, ih idx rest1 hr]
        exact h
    · simp only [refineMask, ne_eq, hv, not_false_eq_true, if_true] at h ⊢
      cases hg : ransacMask[idx]? with
      | none => simp [hg] at h
      | some r =>
        simp only [hg] at h
        cases hr : refineMask ransacMask (idx + 1) rest with
        | none => simp [hr] at h
        | some rest1 =>
          simp only [hr] at h
          have hc : idx + countNonZero (v :: rest) = idx + 1 + countNonZero rest := by
            rw [countNonZero_cons_ne hv]; omega
          have hlt : idx < idx + 1 + countNonZero rest := by omega
          rw [hc, List.getElem?_take_of_lt hlt, hg]
          simp only [ih (idx + 1) rest1 hr]
          exact h

theorem tracker_eq_trackerFrom (lib : Library) (model observed : Option (List KeyPoint))
    (ms : List (List DMatch)) (mask : Option (List Nat)) (thr : Dbl) (homography : Option Mat) :
    getHomographyMatrixFromMatchedFeatures lib model observed (some ms) mask thr homography =
      trackerFrom lib model observed (some ms) mask thr homography (effectiveMask mask ms)
        (selectedCount mask ms) := by
  cases mask <;> rfl

theorem selectedCount_eq (mask : Option (List Nat)) (ms : List (List DMatch)) :
    selectedCount mask ms = countNonZero (effectiveMask mask ms) := by
  cases mask with
  | none => simp [selectedCount, effectiveMask, countNonZero_replicate]
  | some m => rfl

theorem gatherPoints_null_matches (model observed : Option (List KeyPoint)) (rows : List Nat) :
    ∀ (i : Nat) (src0 dst0 src dst : List Point2f),
      gatherPoints model observed none i rows src0 dst0 = Except.ok (src, dst) →
      countNonZero rows = 0 := by
  induction rows with
  | nil => intro _ _ _ _ _ _; rfl
  | cons v rest ih =>
    intro i src0 dst0 src dst h
    by_cases hv : v = 0
    · subst hv
      simp only [gatherPoints, ne_eq, not_true_eq_false, if_false] at h
      rw [countNonZero_cons_zero]
      exact ih _ _ _ _ _ h
    · simp [gatherPoints, hv] at h

theorem gatherPoints_error (model observed : Option (List KeyPoint))
    (matches_ : Option (List (List DMatch))) (rows : List Nat) :
    ∀ (i : Nat) (src0 dst0 : List Point2f) (o : Outcome Bool),
      gatherPoints model observed matches_ i rows src0 dst0 = Except.error o →
      o = Outcome.undefined ∨ o = Outcome.raised Thrown.outOfRange := by
  induction rows with
  | nil => intro i src0 dst0 o h; simp [gatherPoints] at h
  | cons v rest ih =>
    intro i src0 dst0 o h
    by_cases hv : v = 0
    · subst hv
      simp only [gatherPoints, ne_eq, not_true_eq_false, if_false] at h
      exact ih _ _ _ _ h
    · simp only [gatherPoints, ne_eq, hv, not_false_eq_true, if_true] at h
      split at h
      · simp at h; exact Or.inl h.symm
      · split at h
        · simp at h; exact Or.inr h.symm
        · split at h
          · simp at h; exact Or.inr h.symm
          · split at h
            · simp at h; exact Or.inl h.symm
            · split at h
              · simp at h; exact Or.inl h.symm
              · exact ih _ _ _ _ h

/-! ## C13: when the tracker function returns true -/

/-- C13: with a valid `homography` pointer and a library that fills one
mask entry per point pair, the enabled function returns `true` exactly when
at least 4 correspondences are selected and `cv::findHomography`, called on
the gathered point lists, returns a non-empty matrix; the number selected is
the count of non-zero mask entries, or `matches.size()` for a null mask; with
fewer than 4 selected it returns `false` and makes no library call; with 4 or
more selected and the first loop completed, the library is called once. -/
theorem tracker_returns_true_iff (lib : Library) (model observed : Option (List KeyPoint))
    (ms : List (List DMatch)) (mask : Option (List Nat)) (thr : Dbl) (old : Mat)
    (hlib : MaskPerPair lib) :
    ((getHomographyMatrixFromMatchedFeatures lib model observed (some ms) mask thr
        (some old)).outcome = Outcome.returned true ↔
      4 ≤ selectedCount mask ms ∧
      ∃ src dst result ransacMask,
        gatherPoints model observed (some ms) 0 (effectiveMask mask ms) [] [] =
          Except.ok (src, dst) ∧
        lib.findHomographyRansac src dst thr = Except.ok (result, ransacMask) ∧
        result.empty = false) ∧
    (selectedCount mask ms < 4 →
      (getHomographyMatrixFromMatchedFeatures lib model observed (some ms) mask thr
        (some old)).outcome = Outcome.returned false ∧
      (getHomographyMatrixFromMatchedFeatures lib model observed (some ms) mask thr
        (some old)).calls = []) ∧
    (4 ≤ selectedCount mask ms → ∀ src dst,
      gatherPoints model observed (some ms) 0 (effectiveMask mask ms) [] [] =
        Except.ok (src, dst) →
      (getHomographyMatrixFromMatchedFeatures lib model observed (some ms) mask thr
        (some old)).calls = [homographyCall src dst thr]) := by
  rw [tracker_eq_trackerFrom]
  refine ⟨?_, ?_, ?_⟩
  · constructor
    · intro h
      unfold trackerFrom at h
      by_cases h4 : selectedCount mask ms < 4
      · simp [h4] at h
      · simp only [h4, if_false] at h
        refine ⟨by omega, ?_⟩
        cases hg : gatherPoints model observed (some ms) 0 (effectiveMask mask ms) [] [] with
        | error o =>
          simp only [hg] at h
          rcases gatherPoints_error model observed (some ms) _ _ _ _ _ hg with ho | ho <;>
            simp [ho] at h
        | ok p =>
          obtain ⟨src, dst⟩ := p
          simp only [hg] at h
          cases hl : lib.findHomographyRansac src dst thr with
          | error e => simp [hl] at h
          | ok q =>
            obtain ⟨result, rm⟩ := q
            simp only [hl] at h
            by_cases he : result.empty
            · simp [he] at h
            · exact ⟨src, dst, result, rm, rfl, hl, by simpa using he⟩
    · rintro ⟨h4, src, dst, result, rm, hg, hl, he⟩
      have hlen := (gatherPoints_pairs _ _ _ _ _ _ hg).1
      obtain ⟨m1, hm1⟩ := refineMask_some rm (effectiveMask mask ms) 0
        (by rw [hlib src dst thr result rm hl, hlen]; omega)
      unfold trackerFrom
      simp [show ¬ selectedCount mask ms < 4 by omega, hg, hl, he, hm1]
  · intro h4
    unfold trackerFrom
    simp [h4]
  · intro h4 src dst hg
    unfold trackerFrom
    simp only [show ¬ selectedCount mask ms < 4 by omega, if_false, hg]
    cases hl : lib.findHomographyRansac src dst thr with
    | error e => rfl
    | ok q =>
      obtain ⟨result, rm⟩ := q
      have hlen := (gatherPoints_pairs _ _ _ _ _ _ hg).1
      obtain ⟨m1, hm1⟩ := refineMask_some rm (effectiveMask mask ms) 0
        (by rw [hlib src dst thr result rm hl, hlen]; omega)
      by_cases he : result.empty
      · simp [he, homographyCall]
      · simp [he, hm1, homographyCall]

theorem libOk_maskPerPair : MaskPerPair libOk := by
  intro src dst thr result ransacMask h
  simp only [libOk, Except.ok.injEq, Prod.mk.injEq] at h
  rw [← h.2, List.length_map]

theorem libPattern_maskPerPair : MaskPerPair libPattern := by
  intro src dst thr result ransacMask h
  simp only [libPattern, Except.ok.injEq, Prod.mk.injEq] at h
  rw [← h.2]
  simp
  omega

/-- C13, at the sample mask (exactly 4 rows selected): the call returns
`true` after one library call; with one row fewer it returns `false`. -/
theorem tracker_returns_true_iff_witness :
    (getHomographyMatrixFromMatchedFeatures libOk (some sampleModel) (some sampleObserved)
      (some sampleMatches) (some sampleMask) 3 (some ⟨[]⟩)).outcome = Outcome.returned true ∧
    (getHomographyMatrixFromMatchedFeatures libOk (some sampleModel) (some sampleObserved)
      (some sampleMatches) (some [255, 0, 1, 255, 0, 0]) 3 (some ⟨[]⟩)).outcome =
        Outcome.returned false ∧
    (getHomographyMatrixFromMatchedFeatures libOk (some sampleModel) (some sampleObserved)
      (some sampleMatches) (some sampleMask) 3 (some ⟨[]⟩)).calls =
        [homographyCall [⟨50, 51⟩, ⟨30, 31⟩, ⟨20, 21⟩, ⟨30, 31⟩]
          [⟨1, 2⟩, ⟨5, 6⟩, ⟨7, 8⟩, ⟨11, 12⟩] 3] :=
  ⟨(tracker_returns_true_iff libOk (some sampleModel) (some sampleObserved) sampleMatches
      (some sampleMask) 3 ⟨[]⟩ libOk_maskPerPair).1.mpr
      ⟨by decide, [⟨50, 51⟩, ⟨30, 31⟩, ⟨20, 21⟩, ⟨30, 31⟩],
        [⟨1, 2⟩, ⟨5, 6⟩, ⟨7, 8⟩, ⟨11, 12⟩], ⟨[1, 0, 0, 0, 1, 0, 0, 0, 1]⟩, [1, 1, 1, 1],
        rfl, rfl, rfl⟩,
   ((tracker_returns_true_iff libOk (some sampleModel) (some sampleObserved) sampleMatches
      (some [255, 0, 1, 255, 0, 0]) 3 ⟨[]⟩ libOk_maskPerPair).2.1 (by decide)).1,
   (tracker_returns_true_iff libOk (some sampleModel) (some sampleObserved) sampleMatches
      (some sampleMask) 3 ⟨[]⟩ libOk_maskPerPair).2.2 (by decide)
      [⟨50, 51⟩, ⟨30, 31⟩, ⟨20, 21⟩, ⟨30, 31⟩] [⟨1, 2⟩, ⟨5, 6⟩, ⟨7, 8⟩, ⟨11, 12⟩] rfl⟩

/-! ## C14: the point lists handed to `cv::findHomography` -/

theorem selectedRowsFrom_of_ne_zero (rows : List Nat) :
    ∀ (i d v : Nat), rows[d]? = some v → v ≠ 0 → i + d ∈ selectedRowsFrom i rows := by
  induction rows with
  | nil => intro i d v h; simp at h
  | cons u rest ih =>
    intro i d v h hv
    cases d with
    | zero =>
      simp only [List.getElem?_cons_zero, Option.some.injEq] at h
      subst h
      simp [selectedRowsFrom, hv]
    | succ d =>
      simp only [List.getElem?_cons_succ] at h
      have := ih (i + 1) d v h hv
      have he : i + (d + 1) = i + 1 + d := by omega
      rw [he]
      by_cases hu : u = 0
      · simpa [selectedRowsFrom, hu] using this
      · simp only [selectedRowsFrom, ne_eq, hu, not_false_eq_true, if_true, List.mem_cons]
        exact Or.inr this

theorem mem_selectedRows (maskMat : List Nat) (i : Nat) :
    i ∈ selectedRows maskMat ↔ ∃ v, maskMat[i]? = some v ∧ v ≠ 0 := by
  constructor
  · intro h
    obtain ⟨_, _, v, hv, hne⟩ := mem_selectedRowsFrom maskMat 0 i h
    exact ⟨v, by simpa using hv, hne⟩
  · rintro ⟨v, hv, hne⟩
    simpa [selectedRows] using selectedRowsFrom_of_ne_zero maskMat 0 i v hv hne

theorem selectedRowsFrom_increasing (rows : List Nat) :
    ∀ i, List.Pairwise (fun a b => a < b) (selectedRowsFrom i rows) := by
  induction rows with
  | nil => intro i; exact List.Pairwise.nil
  | cons v rest ih =>
    intro i
    by_cases hv : v = 0
    · simpa [selectedRowsFrom, hv] using ih (i + 1)
    · simp only [selectedRowsFrom, ne_eq, hv, not_false_eq_true, if_true, List.pairwise_cons]
      refine ⟨fun j hj => ?_, ih (i + 1)⟩
      have := (mem_selectedRowsFrom rest (i + 1) j hj).1
      omega

theorem selectedRowsFrom_replicate (n : Nat) :
    ∀ i, selectedRowsFrom i (List.replicate n 255) = List.range' i n := by
  induction n with
  | zero => intro i; rfl
  | succ n ih =>
    intro i
    rw [List.replicate_succ, List.range'_succ]
    simp [selectedRowsFrom, ih]

theorem trackerFrom_calls (lib : Library) (model observed : Option (List KeyPoint))
    (matches_ : Option (List (List DMatch))) (mask : Option (List Nat)) (thr : Dbl)
    (homography : Option Mat) (maskMat : List Nat) (nonZero : Nat) :
    (trackerFrom lib model observed matches_ mask thr homography maskMat nonZero).calls =
      if nonZero < 4 then []
      else
        match gatherPoints model observed matches_ 0 maskMat [] [] with
        | Except.error _ => []
        | Except.ok (src, dst) => [homographyCall src dst thr] := by
  unfold trackerFrom
  by_cases h4 : nonZero < 4
  · simp [h4]
  · simp only [h4, if_false]
    cases hg : gatherPoints model observed matches_ 0 maskMat [] [] with
    | error o => rfl
    | ok p =>
      obtain ⟨src, dst⟩ := p
      simp only
      cases lib.findHomographyRansac src dst thr with
      | error e => rfl
      | ok q =>
        obtain ⟨result, rm⟩ := q
        simp only
        split
        · rfl
        · split
          · rfl
          · split <;> rfl

/-- C14: whenever the enabled function calls the library, `matches` is not
null, the call is `cv::findHomography(src, dst, cv::RANSAC, threshold, mask)`
on the two gathered lists, the lists have equal length, the number of
selected rows, and their `k`-th elements are `model[matches[i][0].trainIdx].pt`
and `observed[i].pt` for the `k`-th selected row `i` in increasing order; row
`i` is selected exactly when the mask entry `i` is non-zero, and a null mask
selects all rows `0 .. matches.size()-1`, as an all-255 mask does. -/
theorem tracker_call_point_lists (lib : Library) (model observed : Option (List KeyPoint))
    (matches_ : Option (List (List DMatch))) (mask : Option (List Nat)) (thr : Dbl)
    (homography : Option Mat)
    (hcall : (getHomographyMatrixFromMatchedFeatures lib model observed matches_ mask thr
      homography).calls ≠ []) :
    ∃ ms src dst, matches_ = some ms ∧
      (getHomographyMatrixFromMatchedFeatures lib model observed matches_ mask thr
        homography).calls = [homographyCall src dst thr] ∧
      src.length = dst.length ∧
      src.length = (selectedRows (effectiveMask mask ms)).length ∧
      (∀ k i : Nat, (selectedRows (effectiveMask mask ms))[k]? = some i →
        ∃ s d, src[k]? = some s ∧ dst[k]? = some d ∧
          pairOfRow model observed matches_ i = some (s, d)) ∧
      List.Pairwise (fun a b => a < b) (selectedRows (effectiveMask mask ms)) ∧
      (∀ i : Nat, i ∈ selectedRows (effectiveMask mask ms) ↔
        ∃ v, (effectiveMask mask ms)[i]? = some v ∧ v ≠ 0) ∧
      (mask = none → effectiveMask mask ms = List.replicate ms.length 255 ∧
        selectedRows (effectiveMask mask ms) = List.range ms.length ∧
        (getHomographyMatrixFromMatchedFeatures lib model observed matches_ mask thr
          homography).calls =
        (getHomographyMatrixFromMatchedFeatures lib model observed matches_
          (some (List.replicate ms.length 255)) thr homography).calls) := by
  have key : ∀ (maskMat : List Nat) (nonZero : Nat),
      (trackerFrom lib model observed matches_ mask thr homography maskMat nonZero).calls ≠ [] →
      ∃ src dst, 4 ≤ nonZero ∧
        gatherPoints model observed matches_ 0 maskMat [] [] = Except.ok (src, dst) ∧
        (trackerFrom lib model observed matches_ mask thr homography maskMat nonZero).calls =
          [homographyCall src dst thr] := by
    intro maskMat nonZero h
    unfold trackerFrom at h ⊢
    by_cases h4 : nonZero < 4
    · simp [h4] at h
    · simp only [h4, if_false] at h ⊢
      cases hg : gatherPoints model observed matches_ 0 maskMat [] [] with
      | error o => simp [hg] at h
      | ok p =>
        obtain ⟨src, dst⟩ := p
        refine ⟨src, dst, by omega, rfl, ?_⟩
        simp only
        cases lib.findHomographyRansac src dst thr with
        | error e => rfl
        | ok q =>
          obtain ⟨result, rm⟩ := q
          simp only
          split
          · rfl
          · split
            · rfl
            · split <;> rfl
  have finish : ∀ (ms : List (List DMatch)) (src dst : List Point2f), matches_ = some ms →
      gatherPoints model observed matches_ 0 (effectiveMask mask ms) [] [] =
        Except.ok (src, dst) →
      src.length = dst.length ∧
      src.length = (selectedRows (effectiveMask mask ms)).length ∧
      (∀ k i : Nat, (selectedRows (effectiveMask mask ms))[k]? = some i →
        ∃ s d, src[k]? = some s ∧ dst[k]? = some d ∧
          pairOfRow model observed matches_ i = some (s, d)) ∧
      List.Pairwise (fun a b => a < b) (selectedRows (effectiveMask mask ms)) ∧
      (∀ i : Nat, i ∈ selectedRows (effectiveMask mask ms) ↔
        ∃ v, (effectiveMask mask ms)[i]? = some v ∧ v ≠ 0) ∧
      (mask = none → effectiveMask mask ms = List.replicate ms.length 255 ∧
        selectedRows (effectiveMask mask ms) = List.range ms.length ∧
        (getHomographyMatrixFromMatchedFeatures lib model observed matches_ mask thr
          homography).calls =
        (getHomographyMatrixFromMatchedFeatures lib model observed matches_
          (some (List.replicate ms.length 255)) thr homography).calls) := by
    intro ms src dst hms hg
    obtain ⟨h1, h2, h3⟩ := gatherPoints_pairs model observed matches_ _ src dst hg
    refine ⟨by rw [h1, h2], ?_, h3, selectedRowsFrom_increasing _ 0, mem_selectedRows _, ?_⟩
    · rw [h1, selectedRows, selectedRowsFrom_length]
    · rintro rfl
      refine ⟨rfl, by
        simp [effectiveMask, selectedRows, selectedRowsFrom_replicate, List.range_eq_range'],
        ?_⟩
      subst hms
      simp only [getHomographyMatrixFromMatchedFeatures, trackerFrom_calls,
        countNonZero_replicate]
  cases mask with
  | some m =>
    have hE : getHomographyMatrixFromMatchedFeatures lib model observed matches_ (some m) thr
        homography = trackerFrom lib model observed matches_ (some m) thr homography m
          (countNonZero m) := rfl
    rw [hE] at hcall ⊢
    obtain ⟨src, dst, h4, hg, hc⟩ := key m (countNonZero m) hcall
    cases matches_ with
    | none =>
      have := gatherPoints_null_matches model observed m 0 [] [] src dst hg
      omega
    | some ms => exact ⟨ms, src, dst, rfl, hc, finish ms src dst rfl hg⟩
  | none =>
    cases matches_ with
    | none => simp [getHomographyMatrixFromMatchedFeatures] at hcall
    | some ms =>
      rw [tracker_eq_trackerFrom] at hcall ⊢
      obtain ⟨src, dst, _, hg, hc⟩ := key _ _ hcall
      exact ⟨ms, src, dst, rfl, hc, finish ms src dst rfl hg⟩

/-- C14, at the sample mask: rows 0, 2, 3, 5 are selected; the third pair is
`(model[1].pt, observed[3].pt)`, from the first match of row 3. -/
theorem tracker_call_point_lists_witness :
    ∃ ms src dst, some sampleMatches = some ms ∧
      (getHomographyMatrixFromMatchedFeatures libOk (some sampleModel) (some sampleObserved)
        (some sampleMatches) (some sampleMask) 3 (some ⟨[]⟩)).calls =
          [homographyCall src dst 3] ∧
      src.length = dst.length ∧
      src.length = (selectedRows (effectiveMask (some sampleMask) ms)).length ∧
      (∀ k i : Nat, (selectedRows (effectiveMask (some sampleMask) ms))[k]? = some i →
        ∃ s d, src[k]? = some s ∧ dst[k]? = some d ∧
          pairOfRow (some sampleModel) (some sampleObserved) (some sampleMatches) i =
            some (s, d)) ∧
      List.Pairwise (fun a b => a < b) (selectedRows (effectiveMask (some sampleMask) ms)) ∧
      (∀ i : Nat, i ∈ selectedRows (effectiveMask (some sampleMask) ms) ↔
        ∃ v, (effectiveMask (some sampleMask) ms)[i]? = some v ∧ v ≠ 0) ∧
      ((some sampleMask : Option (List Nat)) = none →
        effectiveMask (some sampleMask) ms = List.replicate ms.length 255 ∧
        selectedRows (effectiveMask (some sampleMask) ms) = List.range ms.length ∧
        (getHomographyMatrixFromMatchedFeatures libOk (some sampleModel) (some sampleObserved)
          (some sampleMatches) (some sampleMask) 3 (some ⟨[]⟩)).calls =
        (getHomographyMatrixFromMatchedFeatures libOk (some sampleModel) (some sampleObserved)
          (some sampleMatches) (some (List.replicate ms.length 255)) 3 (some ⟨[]⟩)).calls) :=
  tracker_call_point_lists libOk (some sampleModel) (some sampleObserved) (some sampleMatches)
    (some sampleMask) 3 (some ⟨[]⟩) (by decide)

/-! ## C15: the mask refined by the inlier mask -/

theorem trackerFrom_true (lib : Library) (model observed : Option (List KeyPoint))
    (matches_ : Option (List (List DMatch))) (mask : Option (List Nat)) (thr : Dbl)
    (homography : Option Mat) (maskMat : List Nat) (nonZero : Nat)
    (h : (trackerFrom lib model observed matches_ mask thr homography maskMat nonZero).outcome
      = Outcome.returned true) :
    ∃ src dst result rm m1,
      gatherPoints model observed matches_ 0 maskMat [] [] = Except.ok (src, dst) ∧
      lib.findHomographyRansac src dst thr = Except.ok (result, rm) ∧
      refineMask rm 0 maskMat = some m1 ∧
      (trackerFrom lib model observed matches_ mask thr homography maskMat nonZero).homography
        = some result ∧
      (trackerFrom lib model observed matches_ mask thr homography maskMat nonZero).mask
        = mask.map fun _ => m1 := by
  unfold trackerFrom at h ⊢
  by_cases h4 : nonZero < 4
  · simp [h4] at h
  · simp only [h4, if_false] at h ⊢
    cases hg : gatherPoints model observed matches_ 0 maskMat [] [] with
    | error o =>
      simp only [hg] at h
      rcases gatherPoints_error model observed matches_ _ _ _ _ _ hg with ho | ho <;>
        simp [ho] at h
    | ok p =>
      obtain ⟨src, dst⟩ := p
      simp only [hg] at h ⊢
      cases hl : lib.findHomographyRansac src dst thr with
      | error e => simp [hl] at h
      | ok q =>
        obtain ⟨result, rm⟩ := q
        simp only [hl] at h ⊢
        by_cases he : result.empty
        · simp [he] at h
        · simp only [he] at h ⊢
          cases homography with
          | none => simp at h
          | some old =>
            simp only at h ⊢
            cases hr : refineMask rm 0 maskMat with
            | none => simp [hr] at h
            | some m1 =>
              exact ⟨src, dst, result, rm, m1, rfl, hl, hr, by simp [swap], by simp⟩

/-- C15: when the enabled function returns `true` on a caller-supplied mask
at address `a` and a homography at a different address `b`, `*homography`
holds the matrix `cv::findHomography` returned; the mask keeps its number of
rows; every entry that was zero is still zero; the entry of the `k`-th
selected row equals `ransacMask[k]`; the rows selected afterwards were
selected before; and the number of `ransacMask` entries read is the number of
point pairs passed to the library. -/
theorem tracker_true_refines_mask (lib : Library) (model observed : Option (List KeyPoint))
    (matches_ : Option (List (List DMatch))) (a b : Nat) (thr : Dbl) (w : World)
    (hab : a ≠ b)
    (htrue : (run true lib (CalibCall.getHomographyMatrixFromMatchedFeatures model observed
      matches_ (some a) thr (some b)) w).1 = Outcome.returned (some (Scalar.bool true))) :
    ∃ src dst result ransacMask,
      gatherPoints model observed matches_ 0 (w.heap.mats a).elems [] [] =
        Except.ok (src, dst) ∧
      lib.findHomographyRansac src dst thr = Except.ok (result, ransacMask) ∧
      (run true lib (CalibCall.getHomographyMatrixFromMatchedFeatures model observed matches_
        (some a) thr (some b)) w).2.heap.mats b = result ∧
      ((run true lib (CalibCall.getHomographyMatrixFromMatchedFeatures model observed matches_
        (some a) thr (some b)) w).2.heap.mats a).elems.length = (w.heap.mats a).elems.length ∧
      (∀ i : Nat, (w.heap.mats a).elems[i]? = some 0 →
        ((run true lib (CalibCall.getHomographyMatrixFromMatchedFeatures model observed
          matches_ (some a) thr (some b)) w).2.heap.mats a).elems[i]? = some 0) ∧
      (∀ k i : Nat, (selectedRows (w.heap.mats a).elems)[k]? = some i →
        ((run true lib (CalibCall.getHomographyMatrixFromMatchedFeatures model observed
          matches_ (some a) thr (some b)) w).2.heap.mats a).elems[i]? = ransacMask[k]? ∧
        k < ransacMask.length) ∧
      (∀ i : Nat, i ∈ selectedRows ((run true lib
          (CalibCall.getHomographyMatrixFromMatchedFeatures model observed matches_ (some a)
            thr (some b)) w).2.heap.mats a).elems →
        i ∈ selectedRows (w.heap.mats a).elems) ∧
      (selectedRows (w.heap.mats a).elems).length = src.length := by
  have hcore : (trackerFrom lib model observed matches_ (some (w.heap.mats a).elems) thr
      (some (w.heap.mats b)) (w.heap.mats a).elems
      (countNonZero (w.heap.mats a).elems)).outcome = Outcome.returned true := by
    simp only [run, if_true, body, exec, execTracker, Option.map_some',
      getHomographyMatrixFromMatchedFeatures] at htrue
    revert htrue
    cases (trackerFrom lib model observed matches_ (some (w.heap.mats a).elems) thr
      (some (w.heap.mats b)) (w.heap.mats a).elems
      (countNonZero (w.heap.mats a).elems)).outcome with
    | returned v => intro h; simpa using h
    | raised e => intro h; simp at h
    | undefined => intro h; simp at h
  obtain ⟨src, dst, result, rm, m1, hg, hl, hr, hh, hm⟩ :=
    trackerFrom_true lib model observed matches_ _ thr _ _ _ hcore
  have hb : (run true lib (CalibCall.getHomographyMatrixFromMatchedFeatures model observed
      matches_ (some a) thr (some b)) w).2.heap.mats b = result := by
    simp [run, body, exec, execTracker, getHomographyMatrixFromMatchedFeatures, hh, hm,
      Heap.setMat]
  have ha : ((run true lib (CalibCall.getHomographyMatrixFromMatchedFeatures model observed
      matches_ (some a) thr (some b)) w).2.heap.mats a).elems = m1 := by
    simp [run, body, exec, execTracker, getHomographyMatrixFromMatchedFeatures, hh, hm,
      Heap.setMat, Function.update_noteq hab]
  obtain ⟨hlen, hz, hs⟩ := refineMask_spec rm (w.heap.mats a).elems 0 m1 hr
  refine ⟨src, dst, result, rm, hg, hl, hb, ?_, ?_, ?_, ?_, ?_⟩
  · rw [ha, hlen]
  · intro i hi
    rw [ha]
    exact hz i hi
  · intro k i hk
    rw [ha]
    simpa using hs 0 k i hk
  · intro i hi
    rw [ha, mem_selectedRows] at hi
    obtain ⟨v, hv, hne⟩ := hi
    rw [mem_selectedRows]
    have hlt : i < (w.heap.mats a).elems.length := by
      rw [← hlen]
      exact (List.getElem?_eq_some.mp hv).1
    refine ⟨(w.heap.mats a).elems[i], List.getElem?_eq_getElem hlt, ?_⟩
    intro h0
    have := hz i (by rw [List.getElem?_eq_getElem hlt, h0])
    rw [hv] at this
    exact hne (by simpa using this)
  · rw [selectedRows, selectedRowsFrom_length, (gatherPoints_pairs _ _ _ _ _ _ hg).1]

/-- C15, over `libPattern` (inlier mask 1, 0, 1, 1 for four pairs) with the
sample mask at address 1: the rows 0, 2, 3, 5 receive 1, 0, 1, 1, the rows 1
and 4 stay zero, and the homography at address 2 is the returned matrix. -/
theorem tracker_true_refines_mask_witness :
    (run true libPattern (CalibCall.getHomographyMatrixFromMatchedFeatures (some sampleModel)
      (some sampleObserved) (some sampleMatches) (some 1) 3 (some 2))
      ⟨heap0.setMat 1 ⟨sampleMask⟩, []⟩).1 = Outcome.returned (some (Scalar.bool true)) ∧
    ((run true libPattern (CalibCall.getHomographyMatrixFromMatchedFeatures (some sampleModel)
      (some sampleObserved) (some sampleMatches) (some 1) 3 (some 2))
      ⟨heap0.setMat 1 ⟨sampleMask⟩, []⟩).2.heap.mats 1).elems = [1, 0, 0, 1, 0, 1] ∧
    (run true libPattern (CalibCall.getHomographyMatrixFromMatchedFeatures (some sampleModel)
      (some sampleObserved) (some sampleMatches) (some 1) 3 (some 2))
      ⟨heap0.setMat 1 ⟨sampleMask⟩, []⟩).2.heap.mats 2 = ⟨[1, 0, 0, 0, 1, 0, 0, 0, 1]⟩ ∧
    ((run true libPattern (CalibCall.getHomographyMatrixFromMatchedFeatures (some sampleModel)
      (some sampleObserved) (some sampleMatches) (some 1) 3 (some 2))
      ⟨heap0.setMat 1 ⟨sampleMask⟩, []⟩).2.heap.mats 1).elems.length = 6 := by
  obtain ⟨_, _, _, _, _, _, _, hlen, _⟩ := tracker_true_refines_mask libPattern
    (some sampleModel) (some sampleObserved) (some sampleMatches) 1 2 3
    ⟨heap0.setMat 1 ⟨sampleMask⟩, []⟩ (by decide) rfl
  exact ⟨rfl, rfl, rfl, hlen.trans rfl⟩

/-! ## C16: container accesses stay in bounds -/

theorem gatherPoints_ok (model observed : Option (List KeyPoint))
    (matches_ : Option (List (List DMatch))) (rows : List Nat) :
    ∀ (i : Nat) (src0 dst0 : List Point2f),
      (∀ j ∈ selectedRowsFrom i rows, pairOfRow model observed matches_ j ≠ none) →
      ∃ src dst, gatherPoints model observed matches_ i rows src0 dst0 =
        Except.ok (src, dst) := by
  induction rows with
  | nil => intro i src0 dst0 _; exact ⟨src0, dst0, rfl⟩
  | cons v rest ih =>
    intro i src0 dst0 hgood
    by_cases hv : v = 0
    · subst hv
      simp only [gatherPoints, ne_eq, not_true_eq_false, if_false]
      exact ih (i + 1) src0 dst0 (by simpa [selectedRowsFrom] using hgood)
    · simp only [selectedRowsFrom, ne_eq, hv, not_false_eq_true, if_true, List.mem_cons,
        forall_eq_or_imp] at hgood
      obtain ⟨hi, hrest⟩ := hgood
      simp only [gatherPoints, ne_eq, hv, not_false_eq_true, if_true]
      cases model with
      | none => simp [pairOfRow] at hi
      | some mo =>
        cases observed with
        | none => simp [pairOfRow] at hi
        | some ob =>
          cases matches_ with
          | none => simp [pairOfRow] at hi
          | some ms =>
            simp only [pairOfRow] at hi
            cases hrow : ms[i]? with
            | none => simp [hrow] at hi
            | some row =>
              cases row with
              | nil => simp [hrow] at hi
              | cons m tl =>
                cases hob : ob[i]? with
                | none => simp [hrow, hob] at hi
                | some o =>
                  by_cases h0 : 0 ≤ m.trainIdx
                  · cases hmo : mo[m.trainIdx.toNat]? with
                    | none => simp [hrow, hob, h0, hmo] at hi
                    | some mk =>
                      simp only [hrow, List.getElem?_cons_zero, indexKeyPoint, h0, if_true, hmo,
                        Int.toNat_ofNat, hob, Nat.cast_nonneg]
                      exact ih (i + 1) _ _ hrest
                  · simp [hrow, hob, h0] at hi

/-- C16: with non-null vectors and `homography`, a mask with at most
`matches.size()` and at most `observed.size()` rows (or, for a null mask,
`matches.size() <= observed.size()`), every selected row `i` having a
non-empty `matches[i]` with `0 <= matches[i][0].trainIdx < model.size()`, and
an inlier mask with one entry per point pair: the first loop completes, the
second loop completes and reads `ransacMask` only at indices below the number
of selected rows, and the call ends neither in undefined behaviour nor in
`std::out_of_range`. -/
theorem tracker_accesses_in_bounds (lib : Library) (mo ob : List KeyPoint)
    (ms : List (List DMatch)) (mask : Option (List Nat)) (thr : Dbl) (old : Mat)
    (hrows : match mask with
      | some m => m.length ≤ ms.length ∧ m.length ≤ ob.length
      | none => ms.length ≤ ob.length)
    (hsel : ∀ i ∈ selectedRows (effectiveMask mask ms), ∀ row, ms[i]? = some row →
      ∃ m tl, row = m :: tl ∧ 0 ≤ m.trainIdx ∧ m.trainIdx < mo.length)
    (hlib : MaskPerPair lib) :
    (∃ src dst, gatherPoints (some mo) (some ob) (some ms) 0 (effectiveMask mask ms) [] [] =
      Except.ok (src, dst)) ∧
    (∀ src dst result ransacMask,
      gatherPoints (some mo) (some ob) (some ms) 0 (effectiveMask mask ms) [] [] =
        Except.ok (src, dst) →
      lib.findHomographyRansac src dst thr = Except.ok (result, ransacMask) →
      ∃ m1, refineMask ransacMask 0 (effectiveMask mask ms) = some m1 ∧
        refineMask (ransacMask.take (selectedRows (effectiveMask mask ms)).length) 0
          (effectiveMask mask ms) = some m1) ∧
    (getHomographyMatrixFromMatchedFeatures lib (some mo) (some ob) (some ms) mask thr
      (some old)).outcome ≠ Outcome.undefined ∧
    (getHomographyMatrixFromMatchedFeatures lib (some mo) (some ob) (some ms) mask thr
      (some old)).outcome ≠ Outcome.raised Thrown.outOfRange := by
  have hlen : (effectiveMask mask ms).length ≤ ms.length ∧
      (effectiveMask mask ms).length ≤ ob.length := by
    cases mask with
    | none => simpa [effectiveMask] using hrows
    | some m => exact hrows
  have hgood : ∀ j ∈ selectedRowsFrom 0 (effectiveMask mask ms),
      pairOfRow (some mo) (some ob) (some ms) j ≠ none := by
    intro j hj
    obtain ⟨_, hjlt, _⟩ := mem_selectedRowsFrom _ 0 j hj
    have hjms : j < ms.length := by omega
    have hjob : j < ob.length := by omega
    obtain ⟨m, tl, hrow, h0, hlt⟩ := hsel j hj ms[j] (List.getElem?_eq_getElem hjms)
    have hmo : m.trainIdx.toNat < mo.length := by omega
    simp [pairOfRow, List.getElem?_eq_getElem hjms, List.getElem?_eq_getElem hjob, hrow, h0,
      List.getElem?_eq_getElem hmo]
  obtain ⟨src, dst, hg⟩ := gatherPoints_ok (some mo) (some ob) (some ms) _ 0 [] [] hgood
  have hsrc := (gatherPoints_pairs _ _ _ _ _ _ hg).1
  have hrefine : ∀ result rm, lib.findHomographyRansac src dst thr = Except.ok (result, rm) →
      ∃ m1, refineMask rm 0 (effectiveMask mask ms) = some m1 ∧
        refineMask (rm.take (selectedRows (effectiveMask mask ms)).length) 0
          (effectiveMask mask ms) = some m1 := by
    intro result rm hl
    obtain ⟨m1, hm1⟩ := refineMask_some rm (effectiveMask mask ms) 0
      (by rw [hlib src dst thr result rm hl, hsrc]; omega)
    refine ⟨m1, hm1, ?_⟩
    have := refineMask_take rm (effectiveMask mask ms) 0 m1 hm1
    rwa [Nat.zero_add, ← selectedRowsFrom_length _ 0] at this
  have hout : ∀ o, (getHomographyMatrixFromMatchedFeatures lib (some mo) (some ob) (some ms)
      mask thr (some old)).outcome = o →
      (∃ v, o = Outcome.returned v) ∨ ∃ e, o = Outcome.raised (Thrown.cvError e) := by
    intro o ho
    rw [tracker_eq_trackerFrom] at ho
    unfold trackerFrom at ho
    by_cases h4 : selectedCount mask ms < 4
    · simp only [h4, if_true] at ho
      exact Or.inl ⟨false, ho.symm⟩
    · simp only [h4, if_false, hg] at ho
      cases hl : lib.findHomographyRansac src dst thr with
      | error e =>
        simp only [hl] at ho
        exact Or.inr ⟨e, ho.symm⟩
      | ok q =>
        obtain ⟨result, rm⟩ := q
        obtain ⟨m1, hm1, _⟩ := hrefine result rm hl
        simp only [hl, hm1] at ho
        by_cases he : result.empty
        · simp only [he, if_true] at ho
          exact Or.inl ⟨false, ho.symm⟩
        · simp only [he] at ho
          exact Or.inl ⟨true, by simpa using ho.symm⟩
  refine ⟨⟨src, dst, hg⟩, ?_, ?_, ?_⟩
  · intro src1 dst1 result rm hg1 hl
    rw [hg] at hg1
    simp only [Except.ok.injEq, Prod.mk.injEq] at hg1
    obtain ⟨rfl, rfl⟩ := hg1
    exact hrefine result rm hl
  · intro h
    rcases hout _ h with ⟨v, hv⟩ | ⟨e, he⟩
    · simp at hv
    · simp at he
  · intro h
    rcases hout _ h with ⟨v, hv⟩ | ⟨e, he⟩
    · simp at hv
    · simp at he

/-- C16, at the sample inputs, which satisfy the precondition: six mask
rows, six rows of matches, six observed keypoints, and train indices below
the five model keypoints. -/
theorem tracker_accesses_in_bounds_witness :
    (getHomographyMatrixFromMatchedFeatures libOk (some sampleModel) (some sampleObserved)
      (some sampleMatches) (some sampleMask) 3 (some ⟨[]⟩)).outcome ≠ Outcome.undefined ∧
    (getHomographyMatrixFromMatchedFeatures libOk (some sampleModel) (some sampleObserved)
      (some sampleMatches) (some sampleMask) 3 (some ⟨[]⟩)).outcome ≠
        Outcome.raised Thrown.outOfRange :=
  (tracker_accesses_in_bounds libOk sampleModel sampleObserved sampleMatches (some sampleMask)
    3 ⟨[]⟩ (by decide)
    (by
      intro i hi row hrow
      simp only [selectedRows, selectedRowsFrom, effectiveMask, sampleMask] at hi
      simp at hi
      rcases hi with rfl | rfl | rfl | rfl <;>
        simp [sampleMatches] at hrow <;> subst hrow <;>
        exact ⟨_, _, rfl, by decide, by decide⟩)
    libOk_maskPerPair).2.2

/-! ## C6, amended: which failures a caller can observe -/

end EmguExtern
